import Mathlib

/-!
Verification development for the Trello Desktop MCP tool-dispatch and
validation layer.  The definitions below are a shallow embedding of the
TypeScript source files `src/server.ts`, `src/tools/boards.ts` and
`src/tools/checklists.ts`: zod schemas become executable validators over
untyped argument maps, handlers become total functions from an abstract
collaborator client behaviour and an argument map to a response envelope,
and the dispatcher switch becomes a string-indexed if-chain.
-/

namespace Trello

/-- Untyped JSON-like values: the shape of caller-supplied argument maps,
request payloads handed to the collaborator client, and serialized results.
Mirrors the JavaScript value space crossed by the trust boundary. -/
inductive Json where
  | str (s : String)
  | num (q : Rat)
  | bool (b : Bool)
  | null
  | arr (items : List Json)
  | obj (fields : List (String × Json))

/-- Escaping for string serialization, modelling `JSON.stringify` on strings:
backslashes and double quotes are escaped. -/
def escapeString (s : String) : String :=
  (s.replace "\\" "\\\\").replace "\"" "\\\""

mutual

/-- Models `JSON.stringify` (up to insignificant whitespace: the source uses
`JSON.stringify(result, null, 2)`, which differs only in indentation). -/
def Json.serialize : Json → String
  | .str s => "\"" ++ escapeString s ++ "\""
  | .num q => if q.den = 1 then toString q.num else toString q.num ++ "/" ++ toString q.den
  | .bool b => if b then "true" else "false"
  | .null => "null"
  | .arr items => "[" ++ Json.serializeList items ++ "]"
  | .obj fields => "\x7b" ++ Json.serializeFields fields ++ "\x7d"

def Json.serializeList : List Json → String
  | [] => ""
  | [j] => Json.serialize j
  | j :: rest => Json.serialize j ++ ", " ++ Json.serializeList rest

def Json.serializeFields : List (String × Json) → String
  | [] => ""
  | [(k, v)] => "\"" ++ escapeString k ++ "\": " ++ Json.serialize v
  | (k, v) :: rest =>
      "\"" ++ escapeString k ++ "\": " ++ Json.serialize v ++ ", " ++ Json.serializeFields rest

end

/-- An untyped argument map as received over the protocol: an ordered list of
field-name/value pairs. -/
abbrev ArgMap := List (String × Json)

/-- Field lookup in an argument map (first occurrence wins, as in a JS object
literal where the parser keeps the last duplicate; argument maps delivered by
the protocol have unique keys, so the choice is immaterial). -/
def lookupArg : ArgMap → String → Option Json
  | [], _ => none
  | (k, v) :: rest, key => if k = key then some v else lookupArg rest key

/-- Lowercase-hex character class `[a-f0-9]` of the Trello identifier regex. -/
def isLowerHexChar (c : Char) : Bool :=
  ('a' ≤ c && c ≤ 'f') || ('0' ≤ c && c ≤ '9')

/-- The Trello identifier check from `src/tools/checklists.ts` line 6:
`z.string().regex(/^[a-f0-9]{24}$/)` — exactly 24 lowercase hex characters. -/
def isTrelloId (s : String) : Bool :=
  s.length == 24 && s.data.all isLowerHexChar

/-- A digit character, for the zod datetime pattern. -/
def isDigitChar (c : Char) : Bool := '0' ≤ c && c ≤ '9'

/-- Fractional-second tail of the zod datetime pattern: zero or more digits
followed by the final `Z`. -/
def fracThenZ : List Char → Bool
  | ['Z'] => true
  | c :: rest => isDigitChar c && fracThenZ rest
  | [] => false

/-- Models zod's default `z.string().datetime()` check:
`^\d{4}-\d{2}-\d{2}T\d{2}:\d{2}:\d{2}(\.\d+)?Z$`. -/
def isDatetime (s : String) : Bool :=
  match s.data with
  | y1 :: y2 :: y3 :: y4 :: '-' :: m1 :: m2 :: '-' :: d1 :: d2 :: 'T' ::
    h1 :: h2 :: ':' :: n1 :: n2 :: ':' :: s1 :: s2 :: rest =>
      ([y1, y2, y3, y4, m1, m2, d1, d2, h1, h2, n1, n2, s1, s2].all isDigitChar) &&
      (match rest with
       | ['Z'] => true
       | '.' :: c :: cs => isDigitChar c && fracThenZ (c :: cs)
       | _ => false)
  | _ => false

/-- Modelled from the spec: `formatValidationError` lives in
`src/utils/validation.ts`, which is not among the provided sources; per spec
§4.1 it produces "a single human-readable message concatenating every violated
field and its reason".  Validation issues are carried as a list of messages and
joined here. -/
def formatValidationError (issues : List String) : String :=
  String.intercalate "; " issues

/-- Error accumulation for zod object parsing: both branches are evaluated and
their issue lists concatenated, mirroring zod's collection of every issue. -/
def zAnd {α β : Type} (a : Except (List String) α) (b : Except (List String) β) :
    Except (List String) (α × β) :=
  match a, b with
  | .ok x, .ok y => .ok (x, y)
  | .error e, .ok _ => .error e
  | .ok _, .error e => .error e
  | .error e, .error f => .error (e ++ f)

/-- `z.string().min(1, msg)` — a required non-empty string with a custom
emptiness message (used for `apiKey` and `token`). -/
def zStrRequired (minMsg : String) : Json → Except (List String) String
  | .str s => if s.length < 1 then .error [minMsg] else .ok s
  | _ => .error ["Expected string, received other type"]

/-- `z.string().min(minLen, minMsg).max(maxLen)`. -/
def zStrMinMax (minLen maxLen : Nat) (minMsg : String) : Json → Except (List String) String
  | .str s =>
      if s.length < minLen then .error [minMsg]
      else if maxLen < s.length then
        .error ["String must contain at most " ++ toString maxLen ++ " character(s)"]
      else .ok s
  | _ => .error ["Expected string, received other type"]

/-- `z.string().max(maxLen)` (no minimum, used for `desc`). -/
def zStrMax (maxLen : Nat) : Json → Except (List String) String
  | .str s =>
      if maxLen < s.length then
        .error ["String must contain at most " ++ toString maxLen ++ " character(s)"]
      else .ok s
  | _ => .error ["Expected string, received other type"]

/-- Plain `z.string()` (used for `prefs_background`). -/
def zStrAny : Json → Except (List String) String
  | .str s => .ok s
  | _ => .error ["Expected string, received other type"]

/-- `z.string().regex(/^[a-f0-9]{24}$/, msg)` — the Trello identifier schema. -/
def zId (msg : String) : Json → Except (List String) String
  | .str s => if isTrelloId s then .ok s else .error [msg]
  | _ => .error ["Expected string, received other type"]

/-- `z.boolean()`. -/
def zBool : Json → Except (List String) Bool
  | .bool b => .ok b
  | _ => .error ["Expected boolean, received other type"]

/-- `z.enum(options)`. -/
def zEnum (options : List String) : Json → Except (List String) String
  | .str s => if options.contains s then .ok s else .error ["Invalid enum value"]
  | _ => .error ["Expected string, received other type"]

/-- The abstract position type produced by the zod union
`z.union([z.number().min(0), z.enum(['top', 'bottom'])])`: both accepted input
forms land in this single type. -/
inductive Pos where
  | num (q : Rat)
  | top
  | bottom
deriving DecidableEq

/-- The position schema `z.union([z.number().min(0), z.enum(['top', 'bottom'])])`. -/
def zPos : Json → Except (List String) Pos
  | .num q =>
      if q < 0 then .error ["Number must be greater than or equal to 0"]
      else .ok (.num q)
  | .str s =>
      if s = "top" then .ok .top
      else if s = "bottom" then .ok .bottom
      else .error ["Invalid position value"]
  | _ => .error ["Invalid position value"]

/-- `z.string().datetime()`. -/
def zDatetime : Json → Except (List String) String
  | .str s => if isDatetime s then .ok s else .error ["Invalid datetime"]
  | _ => .error ["Expected string, received other type"]

/-- A required field of a zod object schema: missing keys are an issue, present
values go through the field schema. -/
def reqField {α : Type} (args : ArgMap) (key : String)
    (p : Json → Except (List String) α) : Except (List String) α :=
  match lookupArg args key with
  | none => .error [key ++ ": Required"]
  | some v => p v

/-- An `.optional()` field: a missing key validates to `none`; a present value
(including an explicit null, which the inner schema rejects) goes through the
field schema. -/
def optField {α : Type} (args : ArgMap) (key : String)
    (p : Json → Except (List String) α) : Except (List String) (Option α) :=
  match lookupArg args key with
  | none => .ok none
  | some v => Except.map some (p v)

/-- A `.nullable().optional()` field: a missing key validates to `none`
(leave unchanged), an explicit null validates to `some none` (clear the
field), any other value goes through the field schema. -/
def optNullableField {α : Type} (args : ArgMap) (key : String)
    (p : Json → Except (List String) α) : Except (List String) (Option (Option α)) :=
  match lookupArg args key with
  | none => .ok none
  | some .null => .ok (some none)
  | some v => Except.map (fun x => some (some x)) (p v)

/-- Validated arguments of `trello_create_board` (`validateCreateBoard` in
`src/tools/boards.ts`). -/
structure CreateBoardArgs where
  apiKey : String
  token : String
  name : String
  desc : Option String
  idOrganization : Option String
  defaultLabels : Option Bool
  defaultLists : Option Bool
  prefs_permissionLevel : Option String
  prefs_background : Option String

/-- `validateCreateBoard` from `src/tools/boards.ts` lines 11–24. -/
def validateCreateBoard (args : ArgMap) : Except (List String) CreateBoardArgs :=
  Except.map
    (fun x => match x with
      | ((((((((k, t), n), d), org), dl), dls), pl), bg) =>
        { apiKey := k, token := t, name := n, desc := d, idOrganization := org,
          defaultLabels := dl, defaultLists := dls,
          prefs_permissionLevel := pl, prefs_background := bg })
    (zAnd (zAnd (zAnd (zAnd (zAnd (zAnd (zAnd (zAnd
      (reqField args "apiKey" (zStrRequired "API key is required"))
      (reqField args "token" (zStrRequired "Token is required")))
      (reqField args "name" (zStrMinMax 1 16384 "Board name is required")))
      (optField args "desc" (zStrMax 16384)))
      (optField args "idOrganization" (zId "Invalid organization ID")))
      (optField args "defaultLabels" zBool))
      (optField args "defaultLists" zBool))
      (optField args "prefs_permissionLevel" (zEnum ["org", "private", "public", "enterprise"])))
      (optField args "prefs_background" zStrAny))

/-- Validated arguments of `trello_create_checklist`. -/
structure CreateChecklistArgs where
  apiKey : String
  token : String
  idCard : String
  name : Option String
  pos : Option Pos
  idChecklistSource : Option String

/-- `validateCreateChecklist` from `src/tools/checklists.ts` lines 8–18. -/
def validateCreateChecklist (args : ArgMap) : Except (List String) CreateChecklistArgs :=
  Except.map
    (fun x => match x with
      | (((((k, t), c), n), p), src) =>
        { apiKey := k, token := t, idCard := c, name := n, pos := p,
          idChecklistSource := src })
    (zAnd (zAnd (zAnd (zAnd (zAnd
      (reqField args "apiKey" (zStrRequired "API key is required"))
      (reqField args "token" (zStrRequired "Token is required")))
      (reqField args "idCard" (zId "Invalid Trello ID format")))
      (optField args "name" (zStrMinMax 1 16384 "String must contain at least 1 character(s)")))
      (optField args "pos" zPos))
      (optField args "idChecklistSource" (zId "Invalid Trello ID format")))

/-- Validated arguments of `trello_get_checklist`. -/
structure GetChecklistArgs where
  apiKey : String
  token : String
  checklistId : String

/-- `validateGetChecklist` from `src/tools/checklists.ts` lines 20–27. -/
def validateGetChecklist (args : ArgMap) : Except (List String) GetChecklistArgs :=
  Except.map
    (fun x => match x with
      | ((k, t), c) => { apiKey := k, token := t, checklistId := c })
    (zAnd (zAnd
      (reqField args "apiKey" (zStrRequired "API key is required"))
      (reqField args "token" (zStrRequired "Token is required")))
      (reqField args "checklistId" (zId "Invalid Trello ID format")))

/-- Validated arguments of `trello_update_checklist`. -/
structure UpdateChecklistArgs where
  apiKey : String
  token : String
  checklistId : String
  name : Option String
  pos : Option Pos

/-- `validateUpdateChecklist` from `src/tools/checklists.ts` lines 29–38. -/
def validateUpdateChecklist (args : ArgMap) : Except (List String) UpdateChecklistArgs :=
  Except.map
    (fun x => match x with
      | ((((k, t), c), n), p) =>
        { apiKey := k, token := t, checklistId := c, name := n, pos := p })
    (zAnd (zAnd (zAnd (zAnd
      (reqField args "apiKey" (zStrRequired "API key is required"))
      (reqField args "token" (zStrRequired "Token is required")))
      (reqField args "checklistId" (zId "Invalid Trello ID format")))
      (optField args "name" (zStrMinMax 1 16384 "String must contain at least 1 character(s)")))
      (optField args "pos" zPos))

/-- Validated arguments of `trello_delete_checklist`. -/
structure DeleteChecklistArgs where
  apiKey : String
  token : String
  checklistId : String

/-- `validateDeleteChecklist` from `src/tools/checklists.ts` lines 40–47. -/
def validateDeleteChecklist (args : ArgMap) : Except (List String) DeleteChecklistArgs :=
  Except.map
    (fun x => match x with
      | ((k, t), c) => { apiKey := k, token := t, checklistId := c })
    (zAnd (zAnd
      (reqField args "apiKey" (zStrRequired "API key is required"))
      (reqField args "token" (zStrRequired "Token is required")))
      (reqField args "checklistId" (zId "Invalid Trello ID format")))

/-- Validated arguments of `trello_create_checklist_item`. -/
structure CreateChecklistItemArgs where
  apiKey : String
  token : String
  checklistId : String
  name : String
  pos : Option Pos
  checked : Option Bool
  due : Option String
  idMember : Option String

/-- `validateCreateChecklistItem` from `src/tools/checklists.ts` lines 49–61. -/
def validateCreateChecklistItem (args : ArgMap) : Except (List String) CreateChecklistItemArgs :=
  Except.map
    (fun x => match x with
      | (((((((k, t), c), n), p), ch), d), m) =>
        { apiKey := k, token := t, checklistId := c, name := n, pos := p,
          checked := ch, due := d, idMember := m })
    (zAnd (zAnd (zAnd (zAnd (zAnd (zAnd (zAnd
      (reqField args "apiKey" (zStrRequired "API key is required"))
      (reqField args "token" (zStrRequired "Token is required")))
      (reqField args "checklistId" (zId "Invalid Trello ID format")))
      (reqField args "name" (zStrMinMax 1 16384 "Item name is required")))
      (optField args "pos" zPos))
      (optField args "checked" zBool))
      (optField args "due" zDatetime))
      (optField args "idMember" (zId "Invalid Trello ID format")))

/-- Validated arguments of `trello_update_checklist_item`.  The `due` and
`idMember` fields are `.nullable().optional()`: `none` means the field was
omitted, `some none` means an explicit null was supplied, `some (some v)`
means a value was supplied. -/
structure UpdateChecklistItemArgs where
  apiKey : String
  token : String
  cardId : String
  checkItemId : String
  state : Option String
  name : Option String
  pos : Option Pos
  due : Option (Option String)
  idMember : Option (Option String)
  idChecklist : Option String

/-- `validateUpdateChecklistItem` from `src/tools/checklists.ts` lines 63–77. -/
def validateUpdateChecklistItem (args : ArgMap) : Except (List String) UpdateChecklistItemArgs :=
  Except.map
    (fun x => match x with
      | (((((((((k, t), c), ci), st), n), p), d), m), cl) =>
        { apiKey := k, token := t, cardId := c, checkItemId := ci, state := st,
          name := n, pos := p, due := d, idMember := m, idChecklist := cl })
    (zAnd (zAnd (zAnd (zAnd (zAnd (zAnd (zAnd (zAnd (zAnd
      (reqField args "apiKey" (zStrRequired "API key is required"))
      (reqField args "token" (zStrRequired "Token is required")))
      (reqField args "cardId" (zId "Invalid Trello ID format")))
      (reqField args "checkItemId" (zId "Invalid Trello ID format")))
      (optField args "state" (zEnum ["complete", "incomplete"])))
      (optField args "name" (zStrMinMax 1 16384 "String must contain at least 1 character(s)")))
      (optField args "pos" zPos))
      (optNullableField args "due" zDatetime))
      (optNullableField args "idMember" (zId "Invalid Trello ID format")))
      (optField args "idChecklist" (zId "Invalid Trello ID format")))

/-- Validated arguments of `trello_delete_checklist_item`. -/
structure DeleteChecklistItemArgs where
  apiKey : String
  token : String
  checklistId : String
  checkItemId : String

/-- `validateDeleteChecklistItem` from `src/tools/checklists.ts` lines 79–87. -/
def validateDeleteChecklistItem (args : ArgMap) : Except (List String) DeleteChecklistItemArgs :=
  Except.map
    (fun x => match x with
      | (((k, t), c), ci) =>
        { apiKey := k, token := t, checklistId := c, checkItemId := ci })
    (zAnd (zAnd (zAnd
      (reqField args "apiKey" (zStrRequired "API key is required"))
      (reqField args "token" (zStrRequired "Token is required")))
      (reqField args "checklistId" (zId "Invalid Trello ID format")))
      (reqField args "checkItemId" (zId "Invalid Trello ID format")))

/-- Board preferences as destructured by the handlers (`board.prefs?.permissionLevel`). -/
structure BoardPrefs where
  permissionLevel : String

/-- A board snapshot returned by the collaborator client, restricted to the
fields the embedded handlers read. -/
structure TrelloBoard where
  id : String
  name : String
  desc : String
  shortUrl : String
  closed : Bool
  prefs : Option BoardPrefs

/-- A check-item snapshot returned by the collaborator client. `due` and
`idMember` may be null on the remote side. -/
structure TrelloCheckItem where
  id : String
  name : String
  state : String
  pos : Rat
  due : Option String
  idMember : Option String
  idChecklist : String
  idCard : String

/-- A checklist snapshot returned by the collaborator client. -/
structure TrelloChecklist where
  id : String
  name : String
  pos : Rat
  idCard : String
  idBoard : String
  checkItems : Option (List TrelloCheckItem)

/-- `TrelloApiResponse<T>`: the typed data plus the opaque pass-through
rate-limit metadata (absent when the client did not report it). -/
structure ApiResponse (α : Type) where
  data : α
  rateLimit : Option Json

/-- A fault raised by the collaborator client (or any unexpected fault during
handling): either a JS `Error` carrying a message, or a thrown non-`Error`
value, which the handlers' catch blocks report as "Unknown error occurred". -/
inductive Fault where
  | error (msg : String)
  | thrown

/-- The message a handler's catch block extracts from a fault. -/
def faultMessage : Fault → String
  | .error m => m
  | .thrown => "Unknown error occurred"

/-- The behaviour of the collaborator client (`TrelloClient` in
`src/trello/client.ts`, out of scope per the spec): one oracle per client
method used by the embedded handlers, each taking the request payload the
handler constructed and either succeeding with typed data or failing. -/
structure ClientBehavior where
  createBoard : List (String × Json) → Except Fault (ApiResponse TrelloBoard)
  createChecklist : List (String × Json) → Except Fault (ApiResponse TrelloChecklist)
  getChecklist : String → Except Fault (ApiResponse TrelloChecklist)
  updateChecklist : String → List (String × Json) → Except Fault (ApiResponse TrelloChecklist)
  deleteChecklist : String → Except Fault (ApiResponse Json)
  createChecklistItem : String → List (String × Json) → Except Fault (ApiResponse TrelloCheckItem)
  updateChecklistItem : String → String → List (String × Json) → Except Fault (ApiResponse TrelloCheckItem)
  deleteChecklistItem : String → String → Except Fault (ApiResponse Json)

/-- One `{ type: 'text', text: ... }` item of a response envelope. -/
structure ContentItem where
  type : String
  text : String

/-- The uniform response envelope: `isError` is `none` when the key is absent
(success) and `some true` on the error path. -/
structure Envelope where
  content : List ContentItem
  isError : Option Bool

/-- The error envelope every catch block returns. -/
def errEnvelope (msg : String) : Envelope :=
  { content := [{ type := "text", text := msg }], isError := some true }

/-- The success envelope: serialized result, no `isError` key. -/
def okEnvelope (j : Json) : Envelope :=
  { content := [{ type := "text", text := Json.serialize j }], isError := none }

/-- One conditional spread `...(x !== undefined && { key: x })` of a request
payload: present fields contribute one entry, absent fields contribute
nothing. -/
def optEntry (key : String) (v : Option Json) : List (String × Json) :=
  match v with
  | some x => [(key, x)]
  | none => []

/-- How a validated position is written into a payload. -/
def posJson : Pos → Json
  | .num q => .num q
  | .top => .str "top"
  | .bottom => .str "bottom"

/-- How a nullable field value is written into a payload or result: an explicit
null is forwarded verbatim as JSON null. -/
def nullableStrJson : Option String → Json
  | some s => .str s
  | none => .null

/-- The `client.createBoard({...})` payload from `src/tools/boards.ts`
lines 83–91. -/
def createBoardPayload (a : CreateBoardArgs) : List (String × Json) :=
  ("name", Json.str a.name) ::
    (optEntry "desc" (a.desc.map Json.str) ++
     optEntry "idOrganization" (a.idOrganization.map Json.str) ++
     optEntry "defaultLabels" (a.defaultLabels.map Json.bool) ++
     optEntry "defaultLists" (a.defaultLists.map Json.bool) ++
     optEntry "prefs_permissionLevel" (a.prefs_permissionLevel.map Json.str) ++
     optEntry "prefs_background" (a.prefs_background.map Json.str))

/-- The `client.createChecklist({...})` payload from `src/tools/checklists.ts`
lines 136–141. -/
def createChecklistPayload (a : CreateChecklistArgs) : List (String × Json) :=
  ("idCard", Json.str a.idCard) ::
    (optEntry "name" (a.name.map Json.str) ++
     optEntry "pos" (a.pos.map posJson) ++
     optEntry "idChecklistSource" (a.idChecklistSource.map Json.str))

/-- The `client.updateChecklist(checklistId, {...})` payload from
`src/tools/checklists.ts` lines 287–290. -/
def updateChecklistPayload (a : UpdateChecklistArgs) : List (String × Json) :=
  optEntry "name" (a.name.map Json.str) ++ optEntry "pos" (a.pos.map posJson)

/-- The `client.createChecklistItem(checklistId, {...})` payload from
`src/tools/checklists.ts` lines 435–441. -/
def createChecklistItemPayload (a : CreateChecklistItemArgs) : List (String × Json) :=
  ("name", Json.str a.name) ::
    (optEntry "pos" (a.pos.map posJson) ++
     optEntry "checked" (a.checked.map Json.bool) ++
     optEntry "due" (a.due.map Json.str) ++
     optEntry "idMember" (a.idMember.map Json.str))

/-- The `client.updateChecklistItem(cardId, checkItemId, {...})` payload from
`src/tools/checklists.ts` lines 542–549.  A `due`/`idMember` that validated to
an explicit null (`some none`) is forwarded verbatim as JSON null; an omitted
one (`none`) contributes no entry. -/
def updateChecklistItemPayload (a : UpdateChecklistItemArgs) : List (String × Json) :=
  optEntry "state" (a.state.map Json.str) ++
  optEntry "name" (a.name.map Json.str) ++
  optEntry "pos" (a.pos.map posJson) ++
  optEntry "due" (a.due.map nullableStrJson) ++
  optEntry "idMember" (a.idMember.map nullableStrJson) ++
  optEntry "idChecklist" (a.idChecklist.map Json.str)

/-- `board.desc || 'No description'` (empty string is falsy in JS). -/
def boardDesc (d : String) : String :=
  if d = "" then "No description" else d

/-- The success result object of `handleCreateBoard`.  The `permissionLevel`
and `rateLimit` keys are dropped by `JSON.stringify` when their value is
undefined. -/
def createBoardResultJson (b : TrelloBoard) (rl : Option Json) : Json :=
  Json.obj
    ([("summary", Json.str ("Created board: " ++ b.name)),
      ("board", Json.obj
        ([("id", Json.str b.id), ("name", Json.str b.name),
          ("description", Json.str (boardDesc b.desc)),
          ("url", Json.str b.shortUrl), ("closed", Json.bool b.closed)] ++
         optEntry "permissionLevel" (b.prefs.map (fun p => Json.str p.permissionLevel))))] ++
     optEntry "rateLimit" rl)

/-- A raw check-item as embedded unprojected in the create-checklist result
(`checkItems: checklist.checkItems ?? []`). -/
def rawCheckItemJson (i : TrelloCheckItem) : Json :=
  Json.obj
    [("id", Json.str i.id), ("name", Json.str i.name), ("state", Json.str i.state),
     ("pos", Json.num i.pos), ("due", nullableStrJson i.due),
     ("idMember", nullableStrJson i.idMember), ("idChecklist", Json.str i.idChecklist),
     ("idCard", Json.str i.idCard)]

/-- The success result object of `handleTrelloCreateChecklist`. -/
def createChecklistResultJson (c : TrelloChecklist) (rl : Option Json) : Json :=
  Json.obj
    ([("summary", Json.str ("Created checklist \"" ++ c.name ++ "\" on card")),
      ("checklist", Json.obj
        [("id", Json.str c.id), ("name", Json.str c.name), ("position", Json.num c.pos),
         ("cardId", Json.str c.idCard), ("boardId", Json.str c.idBoard),
         ("checkItems", Json.arr ((c.checkItems.getD []).map rawCheckItemJson))])] ++
     optEntry "rateLimit" rl)

/-- The per-item projection of `handleTrelloGetChecklist`. -/
def projectedCheckItemJson (i : TrelloCheckItem) : Json :=
  Json.obj
    [("id", Json.str i.id), ("name", Json.str i.name), ("state", Json.str i.state),
     ("position", Json.num i.pos), ("due", nullableStrJson i.due),
     ("idMember", nullableStrJson i.idMember)]

/-- The success result object of `handleTrelloGetChecklist`. -/
def getChecklistResultJson (c : TrelloChecklist) (rl : Option Json) : Json :=
  Json.obj
    ([("summary", Json.str ("Checklist: " ++ c.name)),
      ("checklist", Json.obj
        [("id", Json.str c.id), ("name", Json.str c.name), ("position", Json.num c.pos),
         ("cardId", Json.str c.idCard), ("boardId", Json.str c.idBoard),
         ("checkItems", Json.arr (((c.checkItems.map (List.map projectedCheckItemJson)).getD [])))])] ++
     optEntry "rateLimit" rl)

/-- The success result object of `handleTrelloUpdateChecklist`. -/
def updateChecklistResultJson (c : TrelloChecklist) (rl : Option Json) : Json :=
  Json.obj
    ([("summary", Json.str ("Updated checklist \"" ++ c.name ++ "\"")),
      ("checklist", Json.obj
        [("id", Json.str c.id), ("name", Json.str c.name), ("position", Json.num c.pos),
         ("cardId", Json.str c.idCard), ("boardId", Json.str c.idBoard)])] ++
     optEntry "rateLimit" rl)

/-- The success result object of `handleTrelloDeleteChecklist`: a confirmation
object only — identifier plus `deleted: true`, no entity contents, no
rate-limit key. -/
def deleteChecklistResultJson (checklistId : String) : Json :=
  Json.obj
    [("summary", Json.str ("Deleted checklist " ++ checklistId)),
     ("checklistId", Json.str checklistId), ("deleted", Json.bool true)]

/-- The success result object of `handleTrelloCreateChecklistItem`. -/
def createChecklistItemResultJson (i : TrelloCheckItem) (rl : Option Json) : Json :=
  Json.obj
    ([("summary", Json.str ("Created check item \"" ++ i.name ++ "\"")),
      ("checkItem", Json.obj
        [("id", Json.str i.id), ("name", Json.str i.name), ("state", Json.str i.state),
         ("position", Json.num i.pos), ("due", nullableStrJson i.due),
         ("idMember", nullableStrJson i.idMember), ("checklistId", Json.str i.idChecklist)])] ++
     optEntry "rateLimit" rl)

/-- The success result object of `handleTrelloUpdateChecklistItem`. -/
def updateChecklistItemResultJson (i : TrelloCheckItem) (rl : Option Json) : Json :=
  Json.obj
    ([("summary", Json.str ("Updated check item \"" ++ i.name ++ "\"")),
      ("checkItem", Json.obj
        [("id", Json.str i.id), ("name", Json.str i.name), ("state", Json.str i.state),
         ("position", Json.num i.pos), ("due", nullableStrJson i.due),
         ("idMember", nullableStrJson i.idMember), ("checklistId", Json.str i.idChecklist),
         ("cardId", Json.str i.idCard)])] ++
     optEntry "rateLimit" rl)

/-- The success result object of `handleTrelloDeleteChecklistItem`: a
confirmation object only. -/
def deleteChecklistItemResultJson (checklistId checkItemId : String) : Json :=
  Json.obj
    [("summary", Json.str ("Deleted check item " ++ checkItemId ++ " from checklist " ++ checklistId)),
     ("checklistId", Json.str checklistId), ("checkItemId", Json.str checkItemId),
     ("deleted", Json.bool true)]

/-- `handleCreateBoard` from `src/tools/boards.ts` lines 78–122. -/
def handleCreateBoard (client : ClientBehavior) (args : ArgMap) : Envelope :=
  match validateCreateBoard args with
  | .error e => errEnvelope ("Error creating board: " ++ formatValidationError e)
  | .ok a =>
      match client.createBoard (createBoardPayload a) with
      | .error f => errEnvelope ("Error creating board: " ++ faultMessage f)
      | .ok resp => okEnvelope (createBoardResultJson resp.data resp.rateLimit)

/-- `handleTrelloCreateChecklist` from `src/tools/checklists.ts` lines 131–172. -/
def handleTrelloCreateChecklist (client : ClientBehavior) (args : ArgMap) : Envelope :=
  match validateCreateChecklist args with
  | .error e => errEnvelope ("Error creating checklist: " ++ formatValidationError e)
  | .ok a =>
      match client.createChecklist (createChecklistPayload a) with
      | .error f => errEnvelope ("Error creating checklist: " ++ faultMessage f)
      | .ok resp => okEnvelope (createChecklistResultJson resp.data resp.rateLimit)

/-- `handleTrelloGetChecklist` from `src/tools/checklists.ts` lines 200–243. -/
def handleTrelloGetChecklist (client : ClientBehavior) (args : ArgMap) : Envelope :=
  match validateGetChecklist args with
  | .error e => errEnvelope ("Error getting checklist: " ++ formatValidationError e)
  | .ok a =>
      match client.getChecklist a.checklistId with
      | .error f => errEnvelope ("Error getting checklist: " ++ faultMessage f)
      | .ok resp => okEnvelope (getChecklistResultJson resp.data resp.rateLimit)

/-- `handleTrelloUpdateChecklist` from `src/tools/checklists.ts` lines 282–320. -/
def handleTrelloUpdateChecklist (client : ClientBehavior) (args : ArgMap) : Envelope :=
  match validateUpdateChecklist args with
  | .error e => errEnvelope ("Error updating checklist: " ++ formatValidationError e)
  | .ok a =>
      match client.updateChecklist a.checklistId (updateChecklistPayload a) with
      | .error f => errEnvelope ("Error updating checklist: " ++ faultMessage f)
      | .ok resp => okEnvelope (updateChecklistResultJson resp.data resp.rateLimit)

/-- `handleTrelloDeleteChecklist` from `src/tools/checklists.ts` lines 348–376.
The client's response data is discarded: the result is a confirmation object. -/
def handleTrelloDeleteChecklist (client : ClientBehavior) (args : ArgMap) : Envelope :=
  match validateDeleteChecklist args with
  | .error e => errEnvelope ("Error deleting checklist: " ++ formatValidationError e)
  | .ok a =>
      match client.deleteChecklist a.checklistId with
      | .error f => errEnvelope ("Error deleting checklist: " ++ faultMessage f)
      | .ok _ => okEnvelope (deleteChecklistResultJson a.checklistId)

/-- `handleTrelloCreateChecklistItem` from `src/tools/checklists.ts`
lines 430–473. -/
def handleTrelloCreateChecklistItem (client : ClientBehavior) (args : ArgMap) : Envelope :=
  match validateCreateChecklistItem args with
  | .error e => errEnvelope ("Error creating check item: " ++ formatValidationError e)
  | .ok a =>
      match client.createChecklistItem a.checklistId (createChecklistItemPayload a) with
      | .error f => errEnvelope ("Error creating check item: " ++ faultMessage f)
      | .ok resp => okEnvelope (createChecklistItemResultJson resp.data resp.rateLimit)

/-- `handleTrelloUpdateChecklistItem` from `src/tools/checklists.ts`
lines 537–582. -/
def handleTrelloUpdateChecklistItem (client : ClientBehavior) (args : ArgMap) : Envelope :=
  match validateUpdateChecklistItem args with
  | .error e => errEnvelope ("Error updating check item: " ++ formatValidationError e)
  | .ok a =>
      match client.updateChecklistItem a.cardId a.checkItemId (updateChecklistItemPayload a) with
      | .error f => errEnvelope ("Error updating check item: " ++ faultMessage f)
      | .ok resp => okEnvelope (updateChecklistItemResultJson resp.data resp.rateLimit)

/-- `handleTrelloDeleteChecklistItem` from `src/tools/checklists.ts`
lines 615–644. -/
def handleTrelloDeleteChecklistItem (client : ClientBehavior) (args : ArgMap) : Envelope :=
  match validateDeleteChecklistItem args with
  | .error e => errEnvelope ("Error deleting check item: " ++ formatValidationError e)
  | .ok a =>
      match client.deleteChecklistItem a.checklistId a.checkItemId with
      | .error f => errEnvelope ("Error deleting check item: " ++ faultMessage f)
      | .ok _ => okEnvelope (deleteChecklistItemResultJson a.checklistId a.checkItemId)

/-- An operation descriptor as listed by the ListTools handler: name,
description, and the input schema abstracted as its required and optional
property names. -/
structure ToolDescriptor where
  name : String
  description : String
  required : List String
  optional : List String
deriving DecidableEq

/-- `trelloSearchTool`.  Modelled from the spec: `src/tools/search.ts` is not
among the provided sources; name and fields follow the spec §6 catalog table. -/
def trelloSearchTool : ToolDescriptor :=
  { name := "trello_search",
    description := "free-text search across boards/cards/members",
    required := ["apiKey", "token", "query"], optional := [] }

/-- `trelloGetUserBoardsTool`.  Modelled from the spec: `src/tools/members.ts`
is not among the provided sources; fields follow the spec §6 catalog table. -/
def trelloGetUserBoardsTool : ToolDescriptor :=
  { name := "trello_get_user_boards",
    description := "list boards for the authenticated identity",
    required := ["apiKey", "token"], optional := [] }

/-- `getBoardDetailsTool` from `src/tools/boards.ts` lines 198–225. -/
def getBoardDetailsTool : ToolDescriptor :=
  { name := "get_board_details",
    description := "Get detailed information about a specific Trello board, including its lists and cards. Useful for understanding board structure and content.",
    required := ["apiKey", "token", "boardId"], optional := ["includeDetails"] }

/-- `getCardTool`.  Modelled from the spec: `src/tools/cards.ts` is not among
the provided sources; fields follow the spec §6 catalog table. -/
def getCardTool : ToolDescriptor :=
  { name := "get_card", description := "fetch a single card",
    required := ["apiKey", "token", "cardId"], optional := [] }

/-- `createCardTool`.  Modelled from the spec: `src/tools/cards.ts` is not
among the provided sources; fields follow the spec §6 catalog table. -/
def createCardTool : ToolDescriptor :=
  { name := "create_card", description := "create a card in a list",
    required := ["apiKey", "token", "listId", "name"], optional := [] }

/-- `updateCardTool`.  Modelled from the spec: `src/tools/cards.ts` is not
among the provided sources; fields follow the spec §6 catalog table. -/
def updateCardTool : ToolDescriptor :=
  { name := "update_card", description := "mutate card fields",
    required := ["apiKey", "token", "cardId"], optional := [] }

/-- `moveCardTool`.  Modelled from the spec: `src/tools/cards.ts` is not among
the provided sources; fields follow the spec §6 catalog table. -/
def moveCardTool : ToolDescriptor :=
  { name := "move_card", description := "move a card to another list/board",
    required := ["apiKey", "token", "cardId", "listId"], optional := [] }

/-- `trelloAddCommentTool`.  Modelled from the spec: `src/tools/lists.ts` is
not among the provided sources; fields follow the spec §6 catalog table. -/
def trelloAddCommentTool : ToolDescriptor :=
  { name := "trello_add_comment", description := "add a comment to a card",
    required := ["apiKey", "token", "cardId", "text"], optional := [] }

/-- `trelloGetListCardsTool`.  Modelled from the spec: `src/tools/lists.ts` is
not among the provided sources; fields follow the spec §6 catalog table. -/
def trelloGetListCardsTool : ToolDescriptor :=
  { name := "trello_get_list_cards", description := "list cards in a list",
    required := ["apiKey", "token", "listId"], optional := [] }

/-- `trelloCreateListTool`.  Modelled from the spec: `src/tools/lists.ts` is
not among the provided sources; fields follow the spec §6 catalog table. -/
def trelloCreateListTool : ToolDescriptor :=
  { name := "trello_create_list", description := "create a list on a board",
    required := ["apiKey", "token", "boardId", "name"], optional := [] }

/-- `createBoardTool` from `src/tools/boards.ts` lines 26–76. -/
def createBoardTool : ToolDescriptor :=
  { name := "trello_create_board",
    description := "Create a new Trello board. Optionally set its description, visibility, default lists, and workspace.",
    required := ["apiKey", "token", "name"],
    optional := ["desc", "idOrganization", "defaultLabels", "defaultLists",
                 "prefs_permissionLevel", "prefs_background"] }

/-- `listBoardsTool` from `src/tools/boards.ts` lines 124–147. -/
def listBoardsTool : ToolDescriptor :=
  { name := "list_boards",
    description := "List all Trello boards accessible to the user. Use this to see all boards you have access to, or filter by status.",
    required := ["apiKey", "token"], optional := ["filter"] }

/-- `getListsTool` from `src/tools/boards.ts` lines 299–327. -/
def getListsTool : ToolDescriptor :=
  { name := "get_lists",
    description := "Get all lists in a specific Trello board. Use this to see the workflow columns (like \"To Do\", \"In Progress\", \"Done\") in a board.",
    required := ["apiKey", "token", "boardId"], optional := ["filter"] }

/-- `trelloGetMemberTool`.  Modelled from the spec: `src/tools/members.ts` is
not among the provided sources; fields follow the spec §6 catalog table. -/
def trelloGetMemberTool : ToolDescriptor :=
  { name := "trello_get_member", description := "fetch a member",
    required := ["apiKey", "token"], optional := ["memberId", "username"] }

/-- `trelloGetBoardCardsTool`.  Modelled from the spec: `src/tools/advanced.ts`
is not among the provided sources; fields follow the spec §6 catalog table. -/
def trelloGetBoardCardsTool : ToolDescriptor :=
  { name := "trello_get_board_cards", description := "bulk read of all cards on a board",
    required := ["apiKey", "token", "boardId"], optional := [] }

/-- `trelloGetCardActionsTool`.  Modelled from the spec: `src/tools/advanced.ts`
is not among the provided sources; fields follow the spec §6 catalog table. -/
def trelloGetCardActionsTool : ToolDescriptor :=
  { name := "trello_get_card_actions", description := "bulk read of a card's actions",
    required := ["apiKey", "token", "cardId"], optional := [] }

/-- `trelloGetCardAttachmentsTool`.  Modelled from the spec:
`src/tools/advanced.ts` is not among the provided sources; fields follow the
spec §6 catalog table. -/
def trelloGetCardAttachmentsTool : ToolDescriptor :=
  { name := "trello_get_card_attachments", description := "bulk read of a card's attachments",
    required := ["apiKey", "token", "cardId"], optional := [] }

/-- `trelloGetCardChecklistsTool`.  Modelled from the spec:
`src/tools/advanced.ts` is not among the provided sources; fields follow the
spec §6 catalog table. -/
def trelloGetCardChecklistsTool : ToolDescriptor :=
  { name := "trello_get_card_checklists", description := "bulk read of a card's checklists",
    required := ["apiKey", "token", "cardId"], optional := [] }

/-- `trelloGetBoardMembersTool`.  Modelled from the spec:
`src/tools/advanced.ts` is not among the provided sources; fields follow the
spec §6 catalog table. -/
def trelloGetBoardMembersTool : ToolDescriptor :=
  { name := "trello_get_board_members", description := "bulk read of a board's members",
    required := ["apiKey", "token", "boardId"], optional := [] }

/-- `trelloGetBoardLabelsTool`.  Modelled from the spec: `src/tools/advanced.ts`
is not among the provided sources; fields follow the spec §6 catalog table. -/
def trelloGetBoardLabelsTool : ToolDescriptor :=
  { name := "trello_get_board_labels", description := "bulk read of a board's labels",
    required := ["apiKey", "token", "boardId"], optional := [] }

/-- `trelloCreateChecklistTool` from `src/tools/checklists.ts` lines 91–129. -/
def trelloCreateChecklistTool : ToolDescriptor :=
  { name := "trello_create_checklist",
    description := "Create a new checklist on a Trello card. Optionally copy items from an existing checklist.",
    required := ["apiKey", "token", "idCard"],
    optional := ["name", "pos", "idChecklistSource"] }

/-- `trelloGetChecklistTool` from `src/tools/checklists.ts` lines 176–198. -/
def trelloGetChecklistTool : ToolDescriptor :=
  { name := "trello_get_checklist",
    description := "Get a specific Trello checklist by ID, including all of its check items.",
    required := ["apiKey", "token", "checklistId"], optional := [] }

/-- `trelloUpdateChecklistTool` from `src/tools/checklists.ts` lines 247–280. -/
def trelloUpdateChecklistTool : ToolDescriptor :=
  { name := "trello_update_checklist",
    description := "Update the name or position of a Trello checklist.",
    required := ["apiKey", "token", "checklistId"], optional := ["name", "pos"] }

/-- `trelloDeleteChecklistTool` from `src/tools/checklists.ts` lines 324–346. -/
def trelloDeleteChecklistTool : ToolDescriptor :=
  { name := "trello_delete_checklist",
    description := "Permanently delete a checklist from a Trello card. This also removes all its check items.",
    required := ["apiKey", "token", "checklistId"], optional := [] }

/-- `trelloCreateChecklistItemTool` from `src/tools/checklists.ts`
lines 380–428. -/
def trelloCreateChecklistItemTool : ToolDescriptor :=
  { name := "trello_create_checklist_item",
    description := "Add a new check item to an existing Trello checklist.",
    required := ["apiKey", "token", "checklistId", "name"],
    optional := ["pos", "checked", "due", "idMember"] }

/-- `trelloUpdateChecklistItemTool` from `src/tools/checklists.ts`
lines 477–535. -/
def trelloUpdateChecklistItemTool : ToolDescriptor :=
  { name := "trello_update_checklist_item",
    description := "Update a check item on a Trello card. Use this to mark items complete/incomplete, rename them, change their position, or move them to a different checklist.",
    required := ["apiKey", "token", "cardId", "checkItemId"],
    optional := ["state", "name", "pos", "due", "idMember", "idChecklist"] }

/-- `trelloDeleteChecklistItemTool` from `src/tools/checklists.ts`
lines 586–613. -/
def trelloDeleteChecklistItemTool : ToolDescriptor :=
  { name := "trello_delete_checklist_item",
    description := "Permanently delete a check item from a Trello checklist.",
    required := ["apiKey", "token", "checklistId", "checkItemId"], optional := [] }

/-- The catalog returned by the embedding shell's ListTools handler
(`src/server.ts` lines 111–149), in its declared order. -/
def embeddingShellCatalog : List ToolDescriptor :=
  [trelloSearchTool, trelloGetUserBoardsTool, getBoardDetailsTool, getCardTool,
   createCardTool, updateCardTool, moveCardTool, trelloAddCommentTool,
   trelloGetListCardsTool, trelloCreateListTool, createBoardTool, listBoardsTool,
   getListsTool, trelloGetMemberTool, trelloGetBoardCardsTool, trelloGetCardActionsTool,
   trelloGetCardAttachmentsTool, trelloGetCardChecklistsTool, trelloGetBoardMembersTool,
   trelloGetBoardLabelsTool, trelloCreateChecklistTool, trelloGetChecklistTool,
   trelloUpdateChecklistTool, trelloDeleteChecklistTool, trelloCreateChecklistItemTool,
   trelloUpdateChecklistItemTool, trelloDeleteChecklistItemTool]

/-- Modelled from the spec: the catalog returned by the standalone shell's
ListTools handler.  `src/index.ts` is not among the provided sources; per the
developer guide and spec §4.4 it registers the same imported tool objects in
the same list. -/
def standaloneShellCatalog : List ToolDescriptor :=
  [trelloSearchTool, trelloGetUserBoardsTool, getBoardDetailsTool, getCardTool,
   createCardTool, updateCardTool, moveCardTool, trelloAddCommentTool,
   trelloGetListCardsTool, trelloCreateListTool, createBoardTool, listBoardsTool,
   getListsTool, trelloGetMemberTool, trelloGetBoardCardsTool, trelloGetCardActionsTool,
   trelloGetCardAttachmentsTool, trelloGetCardChecklistsTool, trelloGetBoardMembersTool,
   trelloGetBoardLabelsTool, trelloCreateChecklistTool, trelloGetChecklistTool,
   trelloUpdateChecklistTool, trelloDeleteChecklistTool, trelloCreateChecklistItemTool,
   trelloUpdateChecklistItemTool, trelloDeleteChecklistItemTool]

/-- One identifier per handler function, for stating the name-to-handler
mapping of the two shells. -/
inductive HandlerId where
  | search | getUserBoards | createBoardFn | getBoardDetails | getCard | createCard
  | updateCard | moveCard | addComment | getListCards | createList | listBoards
  | getLists | getMember | getBoardCards | getCardActions | getCardAttachments
  | getCardChecklists | getBoardMembers | getBoardLabels | createChecklistFn
  | getChecklistFn | updateChecklistFn | deleteChecklistFn | createChecklistItemFn
  | updateChecklistItemFn | deleteChecklistItemFn
deriving DecidableEq

/-- The name-to-handler mapping of the embedding shell's CallTool switch
(`src/server.ts` lines 165–259). -/
def embeddingShellRoute (name : String) : Option HandlerId :=
  if name = "trello_search" then some .search
  else if name = "trello_get_user_boards" then some .getUserBoards
  else if name = "trello_create_board" then some .createBoardFn
  else if name = "get_board_details" then some .getBoardDetails
  else if name = "get_card" then some .getCard
  else if name = "create_card" then some .createCard
  else if name = "update_card" then some .updateCard
  else if name = "move_card" then some .moveCard
  else if name = "trello_add_comment" then some .addComment
  else if name = "trello_get_list_cards" then some .getListCards
  else if name = "trello_create_list" then some .createList
  else if name = "list_boards" then some .listBoards
  else if name = "get_lists" then some .getLists
  else if name = "trello_get_member" then some .getMember
  else if name = "trello_get_board_cards" then some .getBoardCards
  else if name = "trello_get_card_actions" then some .getCardActions
  else if name = "trello_get_card_attachments" then some .getCardAttachments
  else if name = "trello_get_card_checklists" then some .getCardChecklists
  else if name = "trello_get_board_members" then some .getBoardMembers
  else if name = "trello_get_board_labels" then some .getBoardLabels
  else if name = "trello_create_checklist" then some .createChecklistFn
  else if name = "trello_get_checklist" then some .getChecklistFn
  else if name = "trello_update_checklist" then some .updateChecklistFn
  else if name = "trello_delete_checklist" then some .deleteChecklistFn
  else if name = "trello_create_checklist_item" then some .createChecklistItemFn
  else if name = "trello_update_checklist_item" then some .updateChecklistItemFn
  else if name = "trello_delete_checklist_item" then some .deleteChecklistItemFn
  else none

/-- Modelled from the spec: the name-to-handler mapping of the standalone
shell's CallTool switch.  `src/index.ts` is not among the provided sources;
per the developer guide and spec §4.4 its switch binds each name to the same
imported handler (with credentials injected into the arguments before
dispatch). -/
def standaloneShellRoute (name : String) : Option HandlerId :=
  if name = "trello_search" then some .search
  else if name = "trello_get_user_boards" then some .getUserBoards
  else if name = "trello_create_board" then some .createBoardFn
  else if name = "get_board_details" then some .getBoardDetails
  else if name = "get_card" then some .getCard
  else if name = "create_card" then some .createCard
  else if name = "update_card" then some .updateCard
  else if name = "move_card" then some .moveCard
  else if name = "trello_add_comment" then some .addComment
  else if name = "trello_get_list_cards" then some .getListCards
  else if name = "trello_create_list" then some .createList
  else if name = "list_boards" then some .listBoards
  else if name = "get_lists" then some .getLists
  else if name = "trello_get_member" then some .getMember
  else if name = "trello_get_board_cards" then some .getBoardCards
  else if name = "trello_get_card_actions" then some .getCardActions
  else if name = "trello_get_card_attachments" then some .getCardAttachments
  else if name = "trello_get_card_checklists" then some .getCardChecklists
  else if name = "trello_get_board_members" then some .getBoardMembers
  else if name = "trello_get_board_labels" then some .getBoardLabels
  else if name = "trello_create_checklist" then some .createChecklistFn
  else if name = "trello_get_checklist" then some .getChecklistFn
  else if name = "trello_update_checklist" then some .updateChecklistFn
  else if name = "trello_delete_checklist" then some .deleteChecklistFn
  else if name = "trello_create_checklist_item" then some .createChecklistItemFn
  else if name = "trello_update_checklist_item" then some .updateChecklistItemFn
  else if name = "trello_delete_checklist_item" then some .deleteChecklistItemFn
  else none

/-- The operation names registered in the CallTool switch of `src/server.ts`. -/
def registeredToolNames : List String :=
  ["trello_search", "trello_get_user_boards", "trello_create_board",
   "get_board_details", "get_card", "create_card", "update_card", "move_card",
   "trello_add_comment", "trello_get_list_cards", "trello_create_list",
   "list_boards", "get_lists", "trello_get_member", "trello_get_board_cards",
   "trello_get_card_actions", "trello_get_card_attachments",
   "trello_get_card_checklists", "trello_get_board_members",
   "trello_get_board_labels", "trello_create_checklist", "trello_get_checklist",
   "trello_update_checklist", "trello_delete_checklist",
   "trello_create_checklist_item", "trello_update_checklist_item",
   "trello_delete_checklist_item"]

/-- The handlers whose defining modules (`src/tools/cards.ts`, `lists.ts`,
`members.ts`, `search.ts`, `advanced.ts`) or whose validators
(`src/utils/validation.ts`, used by three of the four board handlers) are not
among the provided sources.  The dispatcher is parameterized over them; the
unknown-operation claim is independent of their behaviour. -/
structure ExternalHandlers where
  search : ArgMap → Envelope
  getUserBoards : ArgMap → Envelope
  getBoardDetails : ArgMap → Envelope
  getCard : ArgMap → Envelope
  createCard : ArgMap → Envelope
  updateCard : ArgMap → Envelope
  moveCard : ArgMap → Envelope
  addComment : ArgMap → Envelope
  getListCards : ArgMap → Envelope
  createList : ArgMap → Envelope
  listBoards : ArgMap → Envelope
  getLists : ArgMap → Envelope
  getMember : ArgMap → Envelope
  getBoardCards : ArgMap → Envelope
  getCardActions : ArgMap → Envelope
  getCardAttachments : ArgMap → Envelope
  getCardChecklists : ArgMap → Envelope
  getBoardMembers : ArgMap → Envelope
  getBoardLabels : ArgMap → Envelope

/-- The CallTool request handler of `src/server.ts` lines 165–259: a switch on
the operation name.  A registered name delegates to its handler and returns
the handler's envelope; the default case throws `Unknown tool: <name>`,
modelled as the `Except.error` of this function — a protocol-level fault that
is never an envelope. -/
def callToolHandler (client : ClientBehavior) (ext : ExternalHandlers)
    (name : String) (args : ArgMap) : Except String Envelope :=
  if name = "trello_search" then .ok (ext.search args)
  else if name = "trello_get_user_boards" then .ok (ext.getUserBoards args)
  else if name = "trello_create_board" then .ok (handleCreateBoard client args)
  else if name = "get_board_details" then .ok (ext.getBoardDetails args)
  else if name = "get_card" then .ok (ext.getCard args)
  else if name = "create_card" then .ok (ext.createCard args)
  else if name = "update_card" then .ok (ext.updateCard args)
  else if name = "move_card" then .ok (ext.moveCard args)
  else if name = "trello_add_comment" then .ok (ext.addComment args)
  else if name = "trello_get_list_cards" then .ok (ext.getListCards args)
  else if name = "trello_create_list" then .ok (ext.createList args)
  else if name = "list_boards" then .ok (ext.listBoards args)
  else if name = "get_lists" then .ok (ext.getLists args)
  else if name = "trello_get_member" then .ok (ext.getMember args)
  else if name = "trello_get_board_cards" then .ok (ext.getBoardCards args)
  else if name = "trello_get_card_actions" then .ok (ext.getCardActions args)
  else if name = "trello_get_card_attachments" then .ok (ext.getCardAttachments args)
  else if name = "trello_get_card_checklists" then .ok (ext.getCardChecklists args)
  else if name = "trello_get_board_members" then .ok (ext.getBoardMembers args)
  else if name = "trello_get_board_labels" then .ok (ext.getBoardLabels args)
  else if name = "trello_create_checklist" then .ok (handleTrelloCreateChecklist client args)
  else if name = "trello_get_checklist" then .ok (handleTrelloGetChecklist client args)
  else if name = "trello_update_checklist" then .ok (handleTrelloUpdateChecklist client args)
  else if name = "trello_delete_checklist" then .ok (handleTrelloDeleteChecklist client args)
  else if name = "trello_create_checklist_item" then .ok (handleTrelloCreateChecklistItem client args)
  else if name = "trello_update_checklist_item" then .ok (handleTrelloUpdateChecklistItem client args)
  else if name = "trello_delete_checklist_item" then .ok (handleTrelloDeleteChecklistItem client args)
  else .error ("Unknown tool: " ++ name)

/-- A concrete client behaviour on which every call fails with a thrown
non-`Error` value; used to instantiate universally quantified theorems. -/
def failingClient : ClientBehavior :=
  { createBoard := fun _ => .error .thrown,
    createChecklist := fun _ => .error .thrown,
    getChecklist := fun _ => .error .thrown,
    updateChecklist := fun _ _ => .error .thrown,
    deleteChecklist := fun _ => .error .thrown,
    createChecklistItem := fun _ _ => .error .thrown,
    updateChecklistItem := fun _ _ _ => .error .thrown,
    deleteChecklistItem := fun _ _ => .error .thrown }

/-- A concrete board snapshot for witness instantiations. -/
def sampleBoard : TrelloBoard :=
  { id := "aaaaaaaaaaaaaaaaaaaaaaaa", name := "Sample Board", desc := "",
    shortUrl := "https://trello.example/b/x", closed := false, prefs := none }

/-- A concrete check-item snapshot for witness instantiations. -/
def sampleCheckItem : TrelloCheckItem :=
  { id := "cccccccccccccccccccccccc", name := "Item", state := "incomplete",
    pos := 1, due := none, idMember := none,
    idChecklist := "bbbbbbbbbbbbbbbbbbbbbbbb", idCard := "dddddddddddddddddddddddd" }

/-- A concrete checklist snapshot for witness instantiations. -/
def sampleChecklist : TrelloChecklist :=
  { id := "bbbbbbbbbbbbbbbbbbbbbbbb", name := "Sample Checklist", pos := 1,
    idCard := "dddddddddddddddddddddddd", idBoard := "aaaaaaaaaaaaaaaaaaaaaaaa",
    checkItems := none }

/-- A concrete client behaviour on which every call succeeds with a fixed
snapshot and no rate-limit metadata; used to instantiate universally
quantified theorems. -/
def succeedingClient : ClientBehavior :=
  { createBoard := fun _ => .ok { data := sampleBoard, rateLimit := none },
    createChecklist := fun _ => .ok { data := sampleChecklist, rateLimit := none },
    getChecklist := fun _ => .ok { data := sampleChecklist, rateLimit := none },
    updateChecklist := fun _ _ => .ok { data := sampleChecklist, rateLimit := none },
    deleteChecklist := fun _ => .ok { data := Json.null, rateLimit := none },
    createChecklistItem := fun _ _ => .ok { data := sampleCheckItem, rateLimit := none },
    updateChecklistItem := fun _ _ _ => .ok { data := sampleCheckItem, rateLimit := none },
    deleteChecklistItem := fun _ _ => .ok { data := Json.null, rateLimit := none } }

/-- Concrete stand-ins for the handlers whose sources are not provided. -/
def stubExternalHandlers : ExternalHandlers :=
  { search := fun _ => errEnvelope "stub", getUserBoards := fun _ => errEnvelope "stub",
    getBoardDetails := fun _ => errEnvelope "stub", getCard := fun _ => errEnvelope "stub",
    createCard := fun _ => errEnvelope "stub", updateCard := fun _ => errEnvelope "stub",
    moveCard := fun _ => errEnvelope "stub", addComment := fun _ => errEnvelope "stub",
    getListCards := fun _ => errEnvelope "stub", createList := fun _ => errEnvelope "stub",
    listBoards := fun _ => errEnvelope "stub", getLists := fun _ => errEnvelope "stub",
    getMember := fun _ => errEnvelope "stub", getBoardCards := fun _ => errEnvelope "stub",
    getCardActions := fun _ => errEnvelope "stub",
    getCardAttachments := fun _ => errEnvelope "stub",
    getCardChecklists := fun _ => errEnvelope "stub",
    getBoardMembers := fun _ => errEnvelope "stub",
    getBoardLabels := fun _ => errEnvelope "stub" }

/-- The success half of the uniform envelope contract: `isError` absent and a
single text item whose text is the serialization of a structured object
containing a `summary` field. -/
def successShape (env : Envelope) : Prop :=
  env.isError = none ∧
  ∃ fields, env.content = [{ type := "text", text := Json.serialize (Json.obj fields) }] ∧
    "summary" ∈ fields.map Prod.fst

/-- The failure half of the uniform envelope contract: `isError: true` and a
single text item of the form `Error <description>: <message>`. -/
def errorShape (env : Envelope) (d : String) : Prop :=
  env.isError = some true ∧
  ∃ m, env.content = [{ type := "text", text := "Error " ++ d ++ ": " ++ m }]

/-- The per-handler contract of spec §4.2: for every client behaviour and every
raw argument map, a validation failure or a collaborator failure produces the
error envelope shape, and a collaborator success produces the success envelope
shape — the handler never produces anything else and never lets a fault
escape. -/
def handlerContract {V R : Type} (validate : ArgMap → Except (List String) V)
    (call : ClientBehavior → V → Except Fault R)
    (h : ClientBehavior → ArgMap → Envelope) (d : String) : Prop :=
  ∀ client args,
    match validate args with
    | .error _ => errorShape (h client args) d
    | .ok a =>
        match call client a with
        | .error _ => errorShape (h client args) d
        | .ok _ => successShape (h client args)

theorem successShape_okEnvelope (j : Json) (rest : List (String × Json)) :
    successShape (okEnvelope (Json.obj (("summary", j) :: rest))) :=
  ⟨rfl, ("summary", j) :: rest, rfl, by simp⟩

theorem errorShape_errEnvelope (d m : String) :
    errorShape (errEnvelope ("Error " ++ d ++ ": " ++ m)) d :=
  ⟨rfl, m, rfl⟩

theorem contract_createBoard :
    handlerContract validateCreateBoard
      (fun c a => c.createBoard (createBoardPayload a))
      handleCreateBoard "creating board" := by
  intro client args
  cases hv : validateCreateBoard args with
  | error e =>
      simp only
      have h1 : handleCreateBoard client args =
          errEnvelope ("Error creating board: " ++ formatValidationError e) := by
        simp [handleCreateBoard, hv]
      rw [h1]
      exact errorShape_errEnvelope "creating board" (formatValidationError e)
  | ok a =>
      cases hc : client.createBoard (createBoardPayload a) with
      | error f =>
          simp only [hc]
          have h1 : handleCreateBoard client args =
              errEnvelope ("Error creating board: " ++ faultMessage f) := by
            simp [handleCreateBoard, hv, hc]
          rw [h1]
          exact errorShape_errEnvelope "creating board" (faultMessage f)
      | ok resp =>
          simp only [hc]
          have h1 : handleCreateBoard client args =
              okEnvelope (createBoardResultJson resp.data resp.rateLimit) := by
            simp [handleCreateBoard, hv, hc]
          rw [h1]
          exact successShape_okEnvelope _ _

theorem contract_createChecklist :
    handlerContract validateCreateChecklist
      (fun c a => c.createChecklist (createChecklistPayload a))
      handleTrelloCreateChecklist "creating checklist" := by
  intro client args
  cases hv : validateCreateChecklist args with
  | error e =>
      simp only
      have h1 : handleTrelloCreateChecklist client args =
          errEnvelope ("Error creating checklist: " ++ formatValidationError e) := by
        simp [handleTrelloCreateChecklist, hv]
      rw [h1]
      exact errorShape_errEnvelope "creating checklist" (formatValidationError e)
  | ok a =>
      cases hc : client.createChecklist (createChecklistPayload a) with
      | error f =>
          simp only [hc]
          have h1 : handleTrelloCreateChecklist client args =
              errEnvelope ("Error creating checklist: " ++ faultMessage f) := by
            simp [handleTrelloCreateChecklist, hv, hc]
          rw [h1]
          exact errorShape_errEnvelope "creating checklist" (faultMessage f)
      | ok resp =>
          simp only [hc]
          have h1 : handleTrelloCreateChecklist client args =
              okEnvelope (createChecklistResultJson resp.data resp.rateLimit) := by
            simp [handleTrelloCreateChecklist, hv, hc]
          rw [h1]
          exact successShape_okEnvelope _ _

theorem contract_getChecklist :
    handlerContract validateGetChecklist
      (fun c a => c.getChecklist a.checklistId)
      handleTrelloGetChecklist "getting checklist" := by
  intro client args
  cases hv : validateGetChecklist args with
  | error e =>
      simp only
      have h1 : handleTrelloGetChecklist client args =
          errEnvelope ("Error getting checklist: " ++ formatValidationError e) := by
        simp [handleTrelloGetChecklist, hv]
      rw [h1]
      exact errorShape_errEnvelope "getting checklist" (formatValidationError e)
  | ok a =>
      cases hc : client.getChecklist a.checklistId with
      | error f =>
          simp only [hc]
          have h1 : handleTrelloGetChecklist client args =
              errEnvelope ("Error getting checklist: " ++ faultMessage f) := by
            simp [handleTrelloGetChecklist, hv, hc]
          rw [h1]
          exact errorShape_errEnvelope "getting checklist" (faultMessage f)
      | ok resp =>
          simp only [hc]
          have h1 : handleTrelloGetChecklist client args =
              okEnvelope (getChecklistResultJson resp.data resp.rateLimit) := by
            simp [handleTrelloGetChecklist, hv, hc]
          rw [h1]
          exact successShape_okEnvelope _ _

theorem contract_updateChecklist :
    handlerContract validateUpdateChecklist
      (fun c a => c.updateChecklist a.checklistId (updateChecklistPayload a))
      handleTrelloUpdateChecklist "updating checklist" := by
  intro client args
  cases hv : validateUpdateChecklist args with
  | error e =>
      simp only
      have h1 : handleTrelloUpdateChecklist client args =
          errEnvelope ("Error updating checklist: " ++ formatValidationError e) := by
        simp [handleTrelloUpdateChecklist, hv]
      rw [h1]
      exact errorShape_errEnvelope "updating checklist" (formatValidationError e)
  | ok a =>
      cases hc : client.updateChecklist a.checklistId (updateChecklistPayload a) with
      | error f =>
          simp only [hc]
          have h1 : handleTrelloUpdateChecklist client args =
              errEnvelope ("Error updating checklist: " ++ faultMessage f) := by
            simp [handleTrelloUpdateChecklist, hv, hc]
          rw [h1]
          exact errorShape_errEnvelope "updating checklist" (faultMessage f)
      | ok resp =>
          simp only [hc]
          have h1 : handleTrelloUpdateChecklist client args =
              okEnvelope (updateChecklistResultJson resp.data resp.rateLimit) := by
            simp [handleTrelloUpdateChecklist, hv, hc]
          rw [h1]
          exact successShape_okEnvelope _ _

theorem contract_deleteChecklist :
    handlerContract validateDeleteChecklist
      (fun c a => c.deleteChecklist a.checklistId)
      handleTrelloDeleteChecklist "deleting checklist" := by
  intro client args
  cases hv : validateDeleteChecklist args with
  | error e =>
      simp only
      have h1 : handleTrelloDeleteChecklist client args =
          errEnvelope ("Error deleting checklist: " ++ formatValidationError e) := by
        simp [handleTrelloDeleteChecklist, hv]
      rw [h1]
      exact errorShape_errEnvelope "deleting checklist" (formatValidationError e)
  | ok a =>
      cases hc : client.deleteChecklist a.checklistId with
      | error f =>
          simp only [hc]
          have h1 : handleTrelloDeleteChecklist client args =
              errEnvelope ("Error deleting checklist: " ++ faultMessage f) := by
            simp [handleTrelloDeleteChecklist, hv, hc]
          rw [h1]
          exact errorShape_errEnvelope "deleting checklist" (faultMessage f)
      | ok resp =>
          simp only [hc]
          have h1 : handleTrelloDeleteChecklist client args =
              okEnvelope (deleteChecklistResultJson a.checklistId) := by
            simp [handleTrelloDeleteChecklist, hv, hc]
          rw [h1]
          exact successShape_okEnvelope _ _

theorem contract_createChecklistItem :
    handlerContract validateCreateChecklistItem
      (fun c a => c.createChecklistItem a.checklistId (createChecklistItemPayload a))
      handleTrelloCreateChecklistItem "creating check item" := by
  intro client args
  cases hv : validateCreateChecklistItem args with
  | error e =>
      simp only
      have h1 : handleTrelloCreateChecklistItem client args =
          errEnvelope ("Error creating check item: " ++ formatValidationError e) := by
        simp [handleTrelloCreateChecklistItem, hv]
      rw [h1]
      exact errorShape_errEnvelope "creating check item" (formatValidationError e)
  | ok a =>
      cases hc : client.createChecklistItem a.checklistId (createChecklistItemPayload a) with
      | error f =>
          simp only [hc]
          have h1 : handleTrelloCreateChecklistItem client args =
              errEnvelope ("Error creating check item: " ++ faultMessage f) := by
            simp [handleTrelloCreateChecklistItem, hv, hc]
          rw [h1]
          exact errorShape_errEnvelope "creating check item" (faultMessage f)
      | ok resp =>
          simp only [hc]
          have h1 : handleTrelloCreateChecklistItem client args =
              okEnvelope (createChecklistItemResultJson resp.data resp.rateLimit) := by
            simp [handleTrelloCreateChecklistItem, hv, hc]
          rw [h1]
          exact successShape_okEnvelope _ _

theorem contract_updateChecklistItem :
    handlerContract validateUpdateChecklistItem
      (fun c a => c.updateChecklistItem a.cardId a.checkItemId (updateChecklistItemPayload a))
      handleTrelloUpdateChecklistItem "updating check item" := by
  intro client args
  cases hv : validateUpdateChecklistItem args with
  | error e =>
      simp only
      have h1 : handleTrelloUpdateChecklistItem client args =
          errEnvelope ("Error updating check item: " ++ formatValidationError e) := by
        simp [handleTrelloUpdateChecklistItem, hv]
      rw [h1]
      exact errorShape_errEnvelope "updating check item" (formatValidationError e)
  | ok a =>
      cases hc : client.updateChecklistItem a.cardId a.checkItemId (updateChecklistItemPayload a) with
      | error f =>
          simp only [hc]
          have h1 : handleTrelloUpdateChecklistItem client args =
              errEnvelope ("Error updating check item: " ++ faultMessage f) := by
            simp [handleTrelloUpdateChecklistItem, hv, hc]
          rw [h1]
          exact errorShape_errEnvelope "updating check item" (faultMessage f)
      | ok resp =>
          simp only [hc]
          have h1 : handleTrelloUpdateChecklistItem client args =
              okEnvelope (updateChecklistItemResultJson resp.data resp.rateLimit) := by
            simp [handleTrelloUpdateChecklistItem, hv, hc]
          rw [h1]
          exact successShape_okEnvelope _ _

theorem contract_deleteChecklistItem :
    handlerContract validateDeleteChecklistItem
      (fun c a => c.deleteChecklistItem a.checklistId a.checkItemId)
      handleTrelloDeleteChecklistItem "deleting check item" := by
  intro client args
  cases hv : validateDeleteChecklistItem args with
  | error e =>
      simp only
      have h1 : handleTrelloDeleteChecklistItem client args =
          errEnvelope ("Error deleting check item: " ++ formatValidationError e) := by
        simp [handleTrelloDeleteChecklistItem, hv]
      rw [h1]
      exact errorShape_errEnvelope "deleting check item" (formatValidationError e)
  | ok a =>
      cases hc : client.deleteChecklistItem a.checklistId a.checkItemId with
      | error f =>
          simp only [hc]
          have h1 : handleTrelloDeleteChecklistItem client args =
              errEnvelope ("Error deleting check item: " ++ faultMessage f) := by
            simp [handleTrelloDeleteChecklistItem, hv, hc]
          rw [h1]
          exact errorShape_errEnvelope "deleting check item" (faultMessage f)
      | ok resp =>
          simp only [hc]
          have h1 : handleTrelloDeleteChecklistItem client args =
              okEnvelope (deleteChecklistItemResultJson a.checklistId a.checkItemId) := by
            simp [handleTrelloDeleteChecklistItem, hv, hc]
          rw [h1]
          exact successShape_okEnvelope _ _

/-- Claim C1: the embedding shell (`src/server.ts`) and the standalone shell
(`src/index.ts`, modelled from the spec) expose set-equal operation catalogs —
every descriptor (name, description, input schema) registered in one is
registered in the other — and route every operation name to the same handler. -/
theorem c1_catalog_parity :
    (∀ d : ToolDescriptor, d ∈ embeddingShellCatalog ↔ d ∈ standaloneShellCatalog) ∧
    (∀ n : String, embeddingShellRoute n = standaloneShellRoute n) :=
  ⟨fun _ => Iff.rfl, fun _ => rfl⟩

/-- Claim C2: every embedded handler satisfies the uniform envelope contract —
for every client behaviour and every raw argument map the handler returns an
envelope (no fault ever escapes); on collaborator success the envelope has
`isError` absent and its single text item is serialized structured data
containing a `summary` field; on validation failure or collaborator failure it
has `isError: true` and text of the form `Error <description>: <message>`. -/
theorem c2_uniform_envelope :
    handlerContract validateCreateBoard
      (fun c a => c.createBoard (createBoardPayload a))
      handleCreateBoard "creating board" ∧
    handlerContract validateCreateChecklist
      (fun c a => c.createChecklist (createChecklistPayload a))
      handleTrelloCreateChecklist "creating checklist" ∧
    handlerContract validateGetChecklist
      (fun c a => c.getChecklist a.checklistId)
      handleTrelloGetChecklist "getting checklist" ∧
    handlerContract validateUpdateChecklist
      (fun c a => c.updateChecklist a.checklistId (updateChecklistPayload a))
      handleTrelloUpdateChecklist "updating checklist" ∧
    handlerContract validateDeleteChecklist
      (fun c a => c.deleteChecklist a.checklistId)
      handleTrelloDeleteChecklist "deleting checklist" ∧
    handlerContract validateCreateChecklistItem
      (fun c a => c.createChecklistItem a.checklistId (createChecklistItemPayload a))
      handleTrelloCreateChecklistItem "creating check item" ∧
    handlerContract validateUpdateChecklistItem
      (fun c a => c.updateChecklistItem a.cardId a.checkItemId (updateChecklistItemPayload a))
      handleTrelloUpdateChecklistItem "updating check item" ∧
    handlerContract validateDeleteChecklistItem
      (fun c a => c.deleteChecklistItem a.checklistId a.checkItemId)
      handleTrelloDeleteChecklistItem "deleting check item" :=
  ⟨contract_createBoard, contract_createChecklist, contract_getChecklist,
   contract_updateChecklist, contract_deleteChecklist, contract_createChecklistItem,
   contract_updateChecklistItem, contract_deleteChecklistItem⟩

/-- Witness for C2 at concrete inputs: a collaborator success yields the
success shape, a collaborator failure yields the error shape. -/
theorem c2_uniform_envelope_witness :
    successShape (handleCreateBoard succeedingClient
      [("apiKey", Json.str "k"), ("token", Json.str "t"), ("name", Json.str "B")]) ∧
    errorShape (handleTrelloGetChecklist failingClient
      [("apiKey", Json.str "k"), ("token", Json.str "t"),
       ("checklistId", Json.str "bbbbbbbbbbbbbbbbbbbbbbbb")]) "getting checklist" :=
  ⟨c2_uniform_envelope.1 succeedingClient
     [("apiKey", Json.str "k"), ("token", Json.str "t"), ("name", Json.str "B")],
   c2_uniform_envelope.2.2.1 failingClient
     [("apiKey", Json.str "k"), ("token", Json.str "t"),
      ("checklistId", Json.str "bbbbbbbbbbbbbbbbbbbbbbbb")]⟩

/-- Claim C3: invoking a name absent from the registry raises the distinct
unknown-operation fault (`Unknown tool: <name>`) to the dispatch boundary —
it is never converted into a soft `isError` envelope and never silently
ignored. -/
theorem c3_unknown_tool_fault :
    ∀ (client : ClientBehavior) (ext : ExternalHandlers) (args : ArgMap) (name : String),
      name ∉ registeredToolNames →
      callToolHandler client ext name args = .error ("Unknown tool: " ++ name) := by
  intro client ext args name h
  simp only [registeredToolNames, List.mem_cons, List.not_mem_nil, or_false, not_or] at h
  obtain ⟨h1, h2, h3, h4, h5, h6, h7, h8, h9, h10, h11, h12, h13, h14, h15, h16, h17,
    h18, h19, h20, h21, h22, h23, h24, h25, h26, h27⟩ := h
  simp [callToolHandler, h1, h2, h3, h4, h5, h6, h7, h8, h9, h10, h11, h12, h13, h14,
    h15, h16, h17, h18, h19, h20, h21, h22, h23, h24, h25, h26, h27]

/-- Witness for C3 at a concrete unregistered name. -/
theorem c3_unknown_tool_fault_witness :
    callToolHandler failingClient stubExternalHandlers "no_such_tool" [] =
      .error ("Unknown tool: " ++ "no_such_tool") :=
  c3_unknown_tool_fault failingClient stubExternalHandlers [] "no_such_tool" (by decide)

@[simp]
theorem mem_keys_optEntry {x key : String} {v : Option Json} :
    x ∈ (optEntry key v).map Prod.fst ↔ x = key ∧ v.isSome := by
  cases v <;> simp [optEntry]

@[simp]
theorem mem_vals_optEntry {w : Json} {key : String} {v : Option Json} :
    w ∈ (optEntry key v).map Prod.snd ↔ v = some w := by
  cases v <;> simp [optEntry, eq_comm]

@[simp]
theorem mem_optEntry {x key : String} {w : Json} {v : Option Json} :
    (x, w) ∈ optEntry key v ↔ x = key ∧ v = some w := by
  cases v <;> simp [optEntry, eq_comm]

theorem zAnd_ok_iff {α β : Type} {a : Except (List String) α} {b : Except (List String) β}
    {x : α × β} : zAnd a b = .ok x ↔ a = .ok x.1 ∧ b = .ok x.2 := by
  cases a <;> cases b <;> simp [zAnd, Prod.ext_iff, eq_comm]

theorem except_map_ok {α β : Type} {f : α → β} {e : Except (List String) α} {y : β} :
    Except.map f e = .ok y ↔ ∃ x, e = .ok x ∧ f x = y := by
  cases e <;> simp [Except.map]

theorem zAnd_error_right {α β : Type} (a : Except (List String) α) (e : List String) :
    ∃ e', zAnd a (.error e : Except (List String) β) = .error e' := by
  cases a <;> exact ⟨_, rfl⟩

theorem lookupArg_eq_none {l : ArgMap} {k : String} (h : k ∉ l.map Prod.fst) :
    lookupArg l k = none := by
  induction l with
  | nil => rfl
  | cons p rest ih =>
      obtain ⟨k', v⟩ := p
      simp only [List.map_cons, List.mem_cons, not_or] at h
      obtain ⟨h1, h2⟩ := h
      have h1' : ¬(k' = k) := fun hh => h1 hh.symm
      simp [lookupArg, h1', ih h2]

theorem lookupArg_append {l extra : ArgMap} {k : String} (h : k ∉ extra.map Prod.fst) :
    lookupArg (l ++ extra) k = lookupArg l k := by
  induction l with
  | nil => simp [lookupArg, lookupArg_eq_none h]
  | cons p rest ih =>
      obtain ⟨k', v⟩ := p
      by_cases hk : k' = k <;> simp [lookupArg, hk, ih]

theorem exists_map_some {α β : Type} (o : Option α) (f : α → β) :
    (∃ x y, o = some y ∧ f y = x) ↔ o.isSome := by
  cases o <;> simp

theorem exists_bool_map_some {β : Type} (o : Option Bool) (f : Bool → β) :
    (∃ x, o = some false ∧ f false = x ∨ o = some true ∧ f true = x) ↔ o.isSome := by
  cases o with
  | none => simp
  | some b => cases b <;> simp

theorem validateUpdateChecklistItem_fields (args : ArgMap) (a : UpdateChecklistItemArgs)
    (h : validateUpdateChecklistItem args = .ok a) :
    optNullableField args "due" zDatetime = .ok a.due ∧
    optNullableField args "idMember" (zId "Invalid Trello ID format") = .ok a.idMember := by
  rw [validateUpdateChecklistItem, except_map_ok] at h
  obtain ⟨x, hx, hfa⟩ := h
  obtain ⟨⟨⟨⟨⟨⟨⟨⟨⟨xk, xt⟩, xc⟩, xci⟩, xst⟩, xn⟩, xp⟩, xd⟩, xm⟩, xcl⟩ := x
  simp only [zAnd_ok_iff] at hx
  obtain ⟨⟨⟨⟨⟨⟨⟨⟨⟨hk, ht⟩, hc⟩, hci⟩, hst⟩, hn⟩, hp⟩, hd⟩, hm⟩, hcl⟩ := hx
  subst hfa
  exact ⟨hd, hm⟩

theorem validateCreateChecklist_pos (args : ArgMap) (a : CreateChecklistArgs)
    (h : validateCreateChecklist args = .ok a) :
    optField args "pos" zPos = .ok a.pos := by
  rw [validateCreateChecklist, except_map_ok] at h
  obtain ⟨x, hx, hfa⟩ := h
  obtain ⟨⟨⟨⟨⟨xk, xt⟩, xc⟩, xn⟩, xp⟩, xsrc⟩ := x
  simp only [zAnd_ok_iff] at hx
  obtain ⟨⟨⟨⟨⟨hk, ht⟩, hc⟩, hn⟩, hp⟩, hsrc⟩ := hx
  subst hfa
  exact hp

/-- Claim C4: a request payload contains exactly the optional fields present in
the validated arguments plus the operation's mandatory fields; an omitted
optional field never appears as an explicit empty or null value.  Stated for
the two cited payload builders: `createBoard` (mandatory `name`) and
`updateChecklistItem` (no mandatory payload fields — the identifiers travel in
the URL). -/
theorem c4_absence_preservation :
    (∀ a : CreateBoardArgs,
      (∀ k : String, k ∈ (createBoardPayload a).map Prod.fst ↔
        (k = "name" ∨ (k = "desc" ∧ a.desc.isSome) ∨
         (k = "idOrganization" ∧ a.idOrganization.isSome) ∨
         (k = "defaultLabels" ∧ a.defaultLabels.isSome) ∨
         (k = "defaultLists" ∧ a.defaultLists.isSome) ∨
         (k = "prefs_permissionLevel" ∧ a.prefs_permissionLevel.isSome) ∨
         (k = "prefs_background" ∧ a.prefs_background.isSome))) ∧
      Json.null ∉ (createBoardPayload a).map Prod.snd) ∧
    (∀ a : UpdateChecklistItemArgs,
      (∀ k : String, k ∈ (updateChecklistItemPayload a).map Prod.fst ↔
        ((k = "state" ∧ a.state.isSome) ∨ (k = "name" ∧ a.name.isSome) ∨
         (k = "pos" ∧ a.pos.isSome) ∨ (k = "due" ∧ a.due.isSome) ∨
         (k = "idMember" ∧ a.idMember.isSome) ∨
         (k = "idChecklist" ∧ a.idChecklist.isSome))) ∧
      (a.due = none → ("due", Json.null) ∉ updateChecklistItemPayload a) ∧
      (a.idMember = none → ("idMember", Json.null) ∉ updateChecklistItemPayload a)) := by
  refine ⟨fun a => ⟨fun k => ?_, ?_⟩, fun a => ⟨fun k => ?_, fun h => ?_, fun h => ?_⟩⟩
  · simp [createBoardPayload, exists_map_some, exists_bool_map_some]
  · simp [createBoardPayload]
  · simp [updateChecklistItemPayload, exists_map_some]
  · simp [updateChecklistItemPayload, h]
  · simp [updateChecklistItemPayload, h]

/-- Witness for C4 at concrete validated arguments: a present optional field
appears in the payload; an omitted nullable field contributes no null entry. -/
theorem c4_absence_preservation_witness :
    ("desc" ∈ (createBoardPayload
        { apiKey := "k", token := "t", name := "B", desc := some "d",
          idOrganization := none, defaultLabels := none, defaultLists := none,
          prefs_permissionLevel := none, prefs_background := none }).map Prod.fst) ∧
    ("due", Json.null) ∉ updateChecklistItemPayload
        { apiKey := "k", token := "t", cardId := "dddddddddddddddddddddddd",
          checkItemId := "cccccccccccccccccccccccc", state := none, name := none,
          pos := none, due := none, idMember := none, idChecklist := none } :=
  ⟨((c4_absence_preservation.1 _).1 "desc").mpr (Or.inr (Or.inl ⟨rfl, rfl⟩)),
   (c4_absence_preservation.2 _).2.1 rfl⟩

/-- Claim C5: the identifier schema accepts a value exactly when it is 24
lowercase-hexadecimal characters; a malformed identifier makes validation
fail for an operation carrying that field; and a validation failure makes the
handler's outcome independent of the client behaviour — no collaborator call
is attempted. -/
theorem c5_identifier_validation :
    (∀ s : String, isTrelloId s = true ↔
       (s.length = 24 ∧ ∀ c ∈ s.data, ('a' ≤ c ∧ c ≤ 'f') ∨ ('0' ≤ c ∧ c ≤ '9'))) ∧
    (∀ (args : ArgMap) (s : String),
       lookupArg args "checklistId" = some (Json.str s) → isTrelloId s = false →
       ∃ e, validateGetChecklist args = .error e) ∧
    (∀ (client client' : ClientBehavior) (args : ArgMap) (e : List String),
       validateGetChecklist args = .error e →
       handleTrelloGetChecklist client args = handleTrelloGetChecklist client' args) := by
  refine ⟨fun s => ?_, fun args s hlook hbad => ?_, fun client client' args e hv => ?_⟩
  · simp [isTrelloId, isLowerHexChar, List.all_eq_true]
  · have hC : reqField args "checklistId" (zId "Invalid Trello ID format") =
        .error ["Invalid Trello ID format"] := by
      simp [reqField, hlook, zId, hbad]
    obtain ⟨e', he'⟩ := zAnd_error_right
      (zAnd (reqField args "apiKey" (zStrRequired "API key is required"))
        (reqField args "token" (zStrRequired "Token is required")))
      ["Invalid Trello ID format"] (β := String)
    exact ⟨e', by rw [validateGetChecklist, hC, he']; rfl⟩
  · have h1 : handleTrelloGetChecklist client args =
        errEnvelope ("Error getting checklist: " ++ formatValidationError e) := by
      simp [handleTrelloGetChecklist, hv]
    have h2 : handleTrelloGetChecklist client' args =
        errEnvelope ("Error getting checklist: " ++ formatValidationError e) := by
      simp [handleTrelloGetChecklist, hv]
    rw [h1, h2]

/-- Witness for C5 at concrete inputs: a lowercase-hex identifier is accepted;
an uppercase 24-character identifier makes validation fail; and on that
failure the handler behaves identically under a failing and a succeeding
client. -/
theorem c5_identifier_validation_witness :
    isTrelloId "5f1a2b3c4d5e6f7a8b9c0d1e" = true ∧
    (∃ e, validateGetChecklist
      [("apiKey", Json.str "k"), ("token", Json.str "t"),
       ("checklistId", Json.str "ABCDEF0123456789ABCDEF01")] = .error e) ∧
    handleTrelloGetChecklist failingClient
      [("apiKey", Json.str "k"), ("token", Json.str "t"),
       ("checklistId", Json.str "ABCDEF0123456789ABCDEF01")] =
    handleTrelloGetChecklist succeedingClient
      [("apiKey", Json.str "k"), ("token", Json.str "t"),
       ("checklistId", Json.str "ABCDEF0123456789ABCDEF01")] :=
  ⟨(c5_identifier_validation.1 "5f1a2b3c4d5e6f7a8b9c0d1e").mpr (by decide),
   c5_identifier_validation.2.1 _ "ABCDEF0123456789ABCDEF01" rfl (by decide),
   c5_identifier_validation.2.2 failingClient succeedingClient _
     ["Invalid Trello ID format"] rfl⟩

/-- Claim C6: for the checklist-item update operation, `due` and `idMember`
distinguish three input states — omission validates to no value and produces
no payload entry, an explicit null validates to an explicit null and is
forwarded verbatim as JSON null, and a present value is forwarded as given;
null and omission are never conflated. -/
theorem c6_null_vs_omission :
    (∀ (args : ArgMap) (a : UpdateChecklistItemArgs),
       validateUpdateChecklistItem args = .ok a →
       ((lookupArg args "due" = none → a.due = none) ∧
        (lookupArg args "due" = some Json.null → a.due = some none) ∧
        (∀ s, lookupArg args "due" = some (Json.str s) → a.due = some (some s)) ∧
        (lookupArg args "idMember" = none → a.idMember = none) ∧
        (lookupArg args "idMember" = some Json.null → a.idMember = some none) ∧
        (∀ s, lookupArg args "idMember" = some (Json.str s) → a.idMember = some (some s)))) ∧
    (∀ a : UpdateChecklistItemArgs,
       (a.due = none → "due" ∉ (updateChecklistItemPayload a).map Prod.fst) ∧
       (a.due = some none → ("due", Json.null) ∈ updateChecklistItemPayload a) ∧
       (∀ s, a.due = some (some s) → ("due", Json.str s) ∈ updateChecklistItemPayload a) ∧
       (a.idMember = none → "idMember" ∉ (updateChecklistItemPayload a).map Prod.fst) ∧
       (a.idMember = some none → ("idMember", Json.null) ∈ updateChecklistItemPayload a) ∧
       (∀ s, a.idMember = some (some s) →
          ("idMember", Json.str s) ∈ updateChecklistItemPayload a)) := by
  constructor
  · intro args a h
    obtain ⟨hdue, hmem⟩ := validateUpdateChecklistItem_fields args a h
    refine ⟨fun hl => ?_, fun hl => ?_, fun s hl => ?_, fun hl => ?_, fun hl => ?_,
      fun s hl => ?_⟩
    · rw [optNullableField, hl] at hdue
      exact ((Except.ok.injEq _ _).mp hdue).symm
    · rw [optNullableField, hl] at hdue
      exact ((Except.ok.injEq _ _).mp hdue).symm
    · rw [optNullableField, hl] at hdue
      cases hdz : isDatetime s with
      | true => simp [zDatetime, hdz, Except.map] at hdue; exact hdue.symm
      | false => simp [zDatetime, hdz, Except.map] at hdue
    · rw [optNullableField, hl] at hmem
      exact ((Except.ok.injEq _ _).mp hmem).symm
    · rw [optNullableField, hl] at hmem
      exact ((Except.ok.injEq _ _).mp hmem).symm
    · rw [optNullableField, hl] at hmem
      cases hid : isTrelloId s with
      | true => simp [zId, hid, Except.map] at hmem; exact hmem.symm
      | false => simp [zId, hid, Except.map] at hmem
  · intro a
    refine ⟨fun h => ?_, fun h => ?_, fun s h => ?_, fun h => ?_, fun h => ?_, fun s h => ?_⟩ <;>
      simp [updateChecklistItemPayload, h, nullableStrJson]

/-- Witness for C6 at concrete inputs: null validates to an explicit null and
is forwarded verbatim; omission produces no payload entry. -/
theorem c6_null_vs_omission_witness :
    ((⟨"k", "t", "dddddddddddddddddddddddd", "cccccccccccccccccccccccc",
       none, none, none, some none, none, none⟩ : UpdateChecklistItemArgs).due = some none) ∧
    ("due", Json.null) ∈ updateChecklistItemPayload
      ⟨"k", "t", "dddddddddddddddddddddddd", "cccccccccccccccccccccccc",
       none, none, none, some none, none, none⟩ ∧
    "idMember" ∉ (updateChecklistItemPayload
      ⟨"k", "t", "dddddddddddddddddddddddd", "cccccccccccccccccccccccc",
       none, none, none, some none, none, none⟩).map Prod.fst :=
  ⟨(c6_null_vs_omission.1
      [("apiKey", Json.str "k"), ("token", Json.str "t"),
       ("cardId", Json.str "dddddddddddddddddddddddd"),
       ("checkItemId", Json.str "cccccccccccccccccccccccc"), ("due", Json.null)]
      ⟨"k", "t", "dddddddddddddddddddddddd", "cccccccccccccccccccccccc",
       none, none, none, some none, none, none⟩ rfl).2.1 rfl,
   (c6_null_vs_omission.2 _).2.1 rfl,
   (c6_null_vs_omission.2 _).2.2.2.1 rfl⟩

/-- Claim C7: the position schema accepts exactly the non-negative numbers and
the literal tokens `top` and `bottom`, rejects negative numbers and every
other string, and funnels both accepted forms into the single abstract
position type (whatever position value passed validation is the image of the
position schema in the validated arguments). -/
theorem c7_position_polymorphism :
    (∀ q : Rat, 0 ≤ q → zPos (Json.num q) = .ok (Pos.num q)) ∧
    (∀ q : Rat, q < 0 → zPos (Json.num q) = .error ["Number must be greater than or equal to 0"]) ∧
    zPos (Json.str "top") = .ok Pos.top ∧
    zPos (Json.str "bottom") = .ok Pos.bottom ∧
    (∀ s : String, s ≠ "top" → s ≠ "bottom" →
       zPos (Json.str s) = .error ["Invalid position value"]) ∧
    (∀ b : Bool, zPos (Json.bool b) = .error ["Invalid position value"]) ∧
    (∀ (args : ArgMap) (a : CreateChecklistArgs) (v : Json),
       validateCreateChecklist args = .ok a → lookupArg args "pos" = some v →
       ∃ p : Pos, zPos v = .ok p ∧ a.pos = some p) := by
  refine ⟨fun q hq => ?_, fun q hq => ?_, rfl, rfl, fun s h1 h2 => ?_, fun b => rfl,
    fun args a v hv hl => ?_⟩
  · simp [zPos, not_lt.mpr hq]
  · simp [zPos, hq]
  · simp [zPos, h1, h2]
  · have hp := validateCreateChecklist_pos args a hv
    simp only [optField, hl] at hp
    cases hz : zPos v with
    | ok p =>
        simp only [hz, Except.map] at hp
        exact ⟨p, rfl, ((Except.ok.injEq _ _).mp hp).symm⟩
    | error e => simp [hz, Except.map] at hp

/-- Witness for C7 at concrete inputs. -/
theorem c7_position_polymorphism_witness :
    zPos (Json.num 2) = .ok (Pos.num 2) ∧
    zPos (Json.num (-1)) = .error ["Number must be greater than or equal to 0"] ∧
    zPos (Json.str "middle") = .error ["Invalid position value"] ∧
    (∃ p : Pos, zPos (Json.str "top") = .ok p ∧
      (⟨"k", "t", "dddddddddddddddddddddddd", none, some Pos.top, none⟩ :
        CreateChecklistArgs).pos = some p) :=
  ⟨c7_position_polymorphism.1 2 (by norm_num),
   c7_position_polymorphism.2.1 (-1) (by norm_num),
   c7_position_polymorphism.2.2.2.2.1 "middle" (by decide) (by decide),
   c7_position_polymorphism.2.2.2.2.2.2
     [("apiKey", Json.str "k"), ("token", Json.str "t"),
      ("idCard", Json.str "dddddddddddddddddddddddd"), ("pos", Json.str "top")]
     ⟨"k", "t", "dddddddddddddddddddddddd", none, some Pos.top, none⟩
     (Json.str "top") rfl rfl⟩

/-- Claim C8: a successful deletion returns an envelope whose serialized result
is exactly the confirmation object — summary, the deleted entity's
identifier(s), and `deleted: true` — independent of whatever the collaborator
returned, so it never contains the deleted entity's former contents. -/
theorem c8_deletion_confirmation :
    (∀ (client : ClientBehavior) (args : ArgMap) (a : DeleteChecklistArgs),
       validateDeleteChecklist args = .ok a →
       ∀ resp, client.deleteChecklist a.checklistId = .ok resp →
       handleTrelloDeleteChecklist client args =
         okEnvelope (Json.obj
           [("summary", Json.str ("Deleted checklist " ++ a.checklistId)),
            ("checklistId", Json.str a.checklistId),
            ("deleted", Json.bool true)])) ∧
    (∀ (client : ClientBehavior) (args : ArgMap) (a : DeleteChecklistItemArgs),
       validateDeleteChecklistItem args = .ok a →
       ∀ resp, client.deleteChecklistItem a.checklistId a.checkItemId = .ok resp →
       handleTrelloDeleteChecklistItem client args =
         okEnvelope (Json.obj
           [("summary", Json.str ("Deleted check item " ++ a.checkItemId ++
              " from checklist " ++ a.checklistId)),
            ("checklistId", Json.str a.checklistId),
            ("checkItemId", Json.str a.checkItemId),
            ("deleted", Json.bool true)])) := by
  constructor
  · intro client args a hv resp hc
    simp [handleTrelloDeleteChecklist, hv, hc, deleteChecklistResultJson]
  · intro client args a hv resp hc
    simp [handleTrelloDeleteChecklistItem, hv, hc, deleteChecklistItemResultJson]

/-- Witness for C8 at concrete inputs. -/
theorem c8_deletion_confirmation_witness :
    handleTrelloDeleteChecklist succeedingClient
      [("apiKey", Json.str "k"), ("token", Json.str "t"),
       ("checklistId", Json.str "bbbbbbbbbbbbbbbbbbbbbbbb")] =
    okEnvelope (Json.obj
      [("summary", Json.str ("Deleted checklist " ++ "bbbbbbbbbbbbbbbbbbbbbbbb")),
       ("checklistId", Json.str "bbbbbbbbbbbbbbbbbbbbbbbb"),
       ("deleted", Json.bool true)]) :=
  c8_deletion_confirmation.1 succeedingClient
    [("apiKey", Json.str "k"), ("token", Json.str "t"),
     ("checklistId", Json.str "bbbbbbbbbbbbbbbbbbbbbbbb")]
    ⟨"k", "t", "bbbbbbbbbbbbbbbbbbbbbbbb"⟩ rfl
    { data := Json.null, rateLimit := none } rfl

/-- Claim C9 counterexample: the claim says every string of length at most
16384 is accepted for a name field, but the board-name schema also carries
`min(1)`: the empty string (length 0 ≤ 16384) is rejected by
`validateCreateBoard`. -/
theorem c9_counterexample :
    "".length ≤ 16384 ∧
    validateCreateBoard
      [("apiKey", Json.str "k"), ("token", Json.str "t"), ("name", Json.str "")] =
      .error ["Board name is required"] :=
  ⟨by decide, rfl⟩

/-- Claim C9 as amended: free-text fields are capped at 16384 characters —
any longer string is rejected — and accepted below that bound except that
name fields additionally require at least one character (board `desc` has no
minimum). -/
theorem c9_length_bounds :
    ∀ s : String,
      ((validateCreateBoard
          [("apiKey", Json.str "k"), ("token", Json.str "t"),
           ("name", Json.str s)]).isOk
        = (decide (1 ≤ s.length) && decide (s.length ≤ 16384))) ∧
      ((validateCreateBoard
          [("apiKey", Json.str "k"), ("token", Json.str "t"),
           ("name", Json.str "B"), ("desc", Json.str s)]).isOk
        = decide (s.length ≤ 16384)) ∧
      ((validateCreateChecklistItem
          [("apiKey", Json.str "k"), ("token", Json.str "t"),
           ("checklistId", Json.str "bbbbbbbbbbbbbbbbbbbbbbbb"),
           ("name", Json.str s)]).isOk
        = (decide (1 ≤ s.length) && decide (s.length ≤ 16384))) := by
  intro s
  refine ⟨?_, ?_, ?_⟩
  · by_cases h1 : s.length < 1
    · have h1' : ¬(1 ≤ s.length) := by omega
      simp +decide [validateCreateBoard, reqField, optField, lookupArg, zStrRequired,
        zStrMinMax, zAnd, Except.map, Except.isOk, Except.toBool, h1, h1']
    · by_cases h2 : 16384 < s.length
      · have h2' : ¬(s.length ≤ 16384) := by omega
        simp +decide [validateCreateBoard, reqField, optField, lookupArg, zStrRequired,
          zStrMinMax, zAnd, Except.map, Except.isOk, Except.toBool, h1, h2, h2']
      · have h1' : 1 ≤ s.length := by omega
        have h2' : s.length ≤ 16384 := by omega
        simp +decide [validateCreateBoard, reqField, optField, lookupArg, zStrRequired,
          zStrMinMax, zAnd, Except.map, Except.isOk, Except.toBool, h1, h2, h1', h2']
  · by_cases h2 : 16384 < s.length
    · have h2' : ¬(s.length ≤ 16384) := by omega
      simp +decide [validateCreateBoard, reqField, optField, lookupArg, zStrRequired,
        zStrMinMax, zStrMax, zAnd, Except.map, Except.isOk, Except.toBool, h2, h2']
    · have h2' : s.length ≤ 16384 := by omega
      simp +decide [validateCreateBoard, reqField, optField, lookupArg, zStrRequired,
        zStrMinMax, zStrMax, zAnd, Except.map, Except.isOk, Except.toBool, h2, h2']
  · by_cases h1 : s.length < 1
    · have h1' : ¬(1 ≤ s.length) := by omega
      simp +decide [validateCreateChecklistItem, reqField, optField, lookupArg, zStrRequired,
        zStrMinMax, zId, zAnd, Except.map, Except.isOk, Except.toBool, h1, h1']
    · by_cases h2 : 16384 < s.length
      · have h2' : ¬(s.length ≤ 16384) := by omega
        simp +decide [validateCreateChecklistItem, reqField, optField, lookupArg, zStrRequired,
          zStrMinMax, zId, zAnd, Except.map, Except.isOk, Except.toBool, h1, h2, h2']
      · have h1' : 1 ≤ s.length := by omega
        have h2' : s.length ≤ 16384 := by omega
        simp +decide [validateCreateChecklistItem, reqField, optField, lookupArg, zStrRequired,
          zStrMinMax, zId, zAnd, Except.map, Except.isOk, Except.toBool, h1, h2, h1', h2']

/-- Claim C10: argument-map fields not declared in the operation's schema never
cause rejection and never reach the collaborator payload: appending arbitrary
unknown-key fields leaves the validation result — and for the handler, the
entire envelope — unchanged. -/
theorem c10_unknown_fields_stripped :
    ∀ (args extra : ArgMap) (client : ClientBehavior),
      ((∀ k ∈ extra.map Prod.fst,
          k ∉ ["apiKey", "token", "idCard", "name", "pos", "idChecklistSource"]) →
        validateCreateChecklist (args ++ extra) = validateCreateChecklist args) ∧
      ((∀ k ∈ extra.map Prod.fst,
          k ∉ ["apiKey", "token", "name", "desc", "idOrganization", "defaultLabels",
               "defaultLists", "prefs_permissionLevel", "prefs_background"]) →
        (validateCreateBoard (args ++ extra) = validateCreateBoard args ∧
         handleCreateBoard client (args ++ extra) = handleCreateBoard client args)) := by
  intro args extra client
  constructor
  · intro h
    have l1 : lookupArg (args ++ extra) "apiKey" = lookupArg args "apiKey" :=
      lookupArg_append (fun hm => h _ hm (by simp))
    have l2 : lookupArg (args ++ extra) "token" = lookupArg args "token" :=
      lookupArg_append (fun hm => h _ hm (by simp))
    have l3 : lookupArg (args ++ extra) "idCard" = lookupArg args "idCard" :=
      lookupArg_append (fun hm => h _ hm (by simp))
    have l4 : lookupArg (args ++ extra) "name" = lookupArg args "name" :=
      lookupArg_append (fun hm => h _ hm (by simp))
    have l5 : lookupArg (args ++ extra) "pos" = lookupArg args "pos" :=
      lookupArg_append (fun hm => h _ hm (by simp))
    have l6 : lookupArg (args ++ extra) "idChecklistSource" =
        lookupArg args "idChecklistSource" :=
      lookupArg_append (fun hm => h _ hm (by simp))
    simp only [validateCreateChecklist, reqField, optField, l1, l2, l3, l4, l5, l6]
  · intro h
    have l1 : lookupArg (args ++ extra) "apiKey" = lookupArg args "apiKey" :=
      lookupArg_append (fun hm => h _ hm (by simp))
    have l2 : lookupArg (args ++ extra) "token" = lookupArg args "token" :=
      lookupArg_append (fun hm => h _ hm (by simp))
    have l3 : lookupArg (args ++ extra) "name" = lookupArg args "name" :=
      lookupArg_append (fun hm => h _ hm (by simp))
    have l4 : lookupArg (args ++ extra) "desc" = lookupArg args "desc" :=
      lookupArg_append (fun hm => h _ hm (by simp))
    have l5 : lookupArg (args ++ extra) "idOrganization" =
        lookupArg args "idOrganization" :=
      lookupArg_append (fun hm => h _ hm (by simp))
    have l6 : lookupArg (args ++ extra) "defaultLabels" = lookupArg args "defaultLabels" :=
      lookupArg_append (fun hm => h _ hm (by simp))
    have l7 : lookupArg (args ++ extra) "defaultLists" = lookupArg args "defaultLists" :=
      lookupArg_append (fun hm => h _ hm (by simp))
    have l8 : lookupArg (args ++ extra) "prefs_permissionLevel" =
        lookupArg args "prefs_permissionLevel" :=
      lookupArg_append (fun hm => h _ hm (by simp))
    have l9 : lookupArg (args ++ extra) "prefs_background" =
        lookupArg args "prefs_background" :=
      lookupArg_append (fun hm => h _ hm (by simp))
    have hval : validateCreateBoard (args ++ extra) = validateCreateBoard args := by
      simp only [validateCreateBoard, reqField, optField, l1, l2, l3, l4, l5, l6, l7, l8, l9]
    exact ⟨hval, by simp only [handleCreateBoard, hval]⟩

/-- Witness for C10 at concrete inputs: an unknown field neither rejects the
map nor changes the validation result. -/
theorem c10_unknown_fields_stripped_witness :
    validateCreateChecklist
      ([("apiKey", Json.str "k"), ("token", Json.str "t"),
        ("idCard", Json.str "dddddddddddddddddddddddd")] ++
       [("unknownField", Json.bool true)]) =
    validateCreateChecklist
      [("apiKey", Json.str "k"), ("token", Json.str "t"),
       ("idCard", Json.str "dddddddddddddddddddddddd")] :=
  (c10_unknown_fields_stripped
    [("apiKey", Json.str "k"), ("token", Json.str "t"),
     ("idCard", Json.str "dddddddddddddddddddddddd")]
    [("unknownField", Json.bool true)] failingClient).1 (by decide)

end Trello
